import Mathlib

/-!
SAMS attendance dashboards: teacher session controller and student verification
controller.

A shallow embedding of `static/js/teacher/dashboard.js` and
`static/js/student/dashboard.js`.

JavaScript runs every handler to completion; an `async` function is cut at its
`await`s.  Each such function is embedded as the synchronous segment that runs
when it is called and the segment that runs when the awaited promise settles.
`fetch(...)` followed by `response.json()` is one suspension: between the two
awaits the handlers read and write none of the controller's variables.
-/

namespace SAMS

/-! ## JavaScript values -/

/-- Values that reach the controllers from JSON bodies and DOM attributes.
`other repr` is any remaining value (a non-integral number, an array, an object):
it is truthy and `repr` is its string conversion. -/
inductive JSVal where
  | undefined
  | null
  | bool (b : Bool)
  | num (n : Int)
  | str (s : String)
  | other (repr : String)
  deriving DecidableEq, Repr

/-- Truthiness, as tested by `if (v)`, `!v` and `v || w`. -/
def JSVal.truthy : JSVal → Bool
  | .undefined => false
  | .null => false
  | .bool b => b
  | .num n => n != 0
  | .str s => s != ""
  | .other _ => true

/-- String conversion, as performed by a template literal. -/
def JSVal.toStr : JSVal → String
  | .undefined => "undefined"
  | .null => "null"
  | .bool b => if b then "true" else "false"
  | .num n => toString n
  | .str s => s
  | .other repr => repr

/-- The expression `v || w`. -/
def JSVal.or (v w : JSVal) : JSVal :=
  if v.truthy then v else w

/-- A variable that holds `null`, `NaN` or an integral number
(`expiresAtMs`, `selectedClassroomId`). -/
inductive JSNum where
  | null
  | nan
  | num (n : Int)
  deriving DecidableEq, Repr

/-- Truthiness of a number-or-null variable: `null`, `NaN` and `0` are falsy. -/
def JSNum.truthy : JSNum → Bool
  | .null => false
  | .nan => false
  | .num n => n != 0

/-- The number produced by `new Date(v).getTime()`: a time in milliseconds, or `NaN`
(`none`) for an invalid date. -/
def JSNum.ofTime : Option Int → JSNum
  | none => .nan
  | some t => .num t

/-- The properties the controllers read off a parsed JSON body.  A body that is a
number, a string, a boolean or an array has none of them: every field `undefined`. -/
structure Body where
  success : JSVal := .undefined
  error : JSVal := .undefined
  token : JSVal := .undefined
  session_id : JSVal := .undefined
  expires_at : JSVal := .undefined
  attendance_id : JSVal := .undefined
  match_ : JSVal := .undefined
  score : JSVal := .undefined
  deriving DecidableEq, Repr

/-- Outcome of `await response.json()`: the promise rejects (malformed or absent
JSON), or resolves to `null` (any property read then throws a `TypeError`), or
resolves to a value whose properties can be read.  `msg` is the `message` of the
error object. -/
inductive Parsed where
  | rejects (msg : String)
  | null (msg : String)
  | value (data : Body)
  deriving DecidableEq, Repr

/-- Outcome of `await fetch(...)` followed by `await response.json()`: the fetch
promise rejects (transport error), or a response arrives with its `ok` flag
(status 2xx) and its parsed body. -/
inductive FetchResult where
  | rejects (msg : String)
  | response (ok : Bool) (json : Parsed)
  deriving DecidableEq, Repr

/-- How an awaited promise settles. -/
inductive Settled where
  | fulfilled
  | rejected
  deriving DecidableEq, Repr

/-- Markup assigned to an `innerHTML`:
`empty` is `''`, `span c t` is `<span class="c">t</span>`,
`processing` is `<div class="alert alert-info"><strong>Processing...</strong></div>`,
`scoreSpan c lead v` is `<span class="c">lead` followed by `Number(v).toFixed(4)` and `</span>`. -/
inductive Html where
  | empty
  | span (cssClass : String) (text : String)
  | processing
  | scoreSpan (cssClass : String) (lead : String) (score : JSVal)
  deriving DecidableEq, Repr

/-- White space and line terminators, the characters `String.prototype.trim` strips
and the class `\s` matches. -/
def isJsSpace (c : Char) : Bool :=
  c.toNat = 0x09 || c.toNat = 0x0A || c.toNat = 0x0B || c.toNat = 0x0C ||
  c.toNat = 0x0D || c.toNat = 0x20 || c.toNat = 0xA0 || c.toNat = 0x1680 ||
  (0x2000 ≤ c.toNat && c.toNat ≤ 0x200A) || c.toNat = 0x2028 || c.toNat = 0x2029 ||
  c.toNat = 0x202F || c.toNat = 0x205F || c.toNat = 0x3000 || c.toNat = 0xFEFF

/-- `s.trim()`. -/
def jsTrim (s : String) : String :=
  ⟨((s.data.dropWhile isJsSpace).reverse.dropWhile isJsSpace).reverse⟩

/-- The body of a round trip that passed the test `!response.ok || !data.success`,
`none` for every failed round trip (transport error, malformed JSON, `null` body,
non-2xx status, falsy `success`). -/
def succeeded : FetchResult → Option Body
  | .response true (.value data) => if data.success.truthy then some data else none
  | _ => none

/-! ## Teacher dashboard -/

namespace Teacher

/-- The variables of `setup()` that the session handlers share. -/
structure Vars where
  sessionId : JSVal := .null
  pollTimer : Option Nat := none
  countdownTimer : Option Nat := none
  expiresAtMs : JSNum := .null
  isStopping : Bool := false
  deriving DecidableEq, Repr

/-- What a live interval calls: `refreshQr` (every 3000 ms) or the countdown
redraw (every 500 ms). -/
inductive TimerKind where
  | poll
  | countdown
  deriving DecidableEq, Repr

/-- A live interval: the handle `setInterval` returned and its callback. -/
structure Timer where
  id : Nat
  kind : TimerKind
  deriving DecidableEq, Repr

/-- A request handed to `fetch`.  The URL is `buildUrl(template, id)`; the request is
identified by its endpoint and the id placed in the URL (for `start` and `download`,
the `data-classroom-id` of the button with the given index). -/
inductive Request where
  | start (btn : Nat)
  | qr (sessionId : JSVal)
  | stop (sessionId : JSVal)
  | download (btn : Nat)
  deriving DecidableEq, Repr

/-- History entry for one `fetch`: the request, with the shared variables and the
live intervals at the instant it was issued. -/
structure Sent where
  req : Request
  vars : Vars
  live : List Timer
  deriving DecidableEq, Repr

/-- Text of `qrExpiry`: `''` or the template `Expires in ${left}s`. -/
inductive ExpiryText where
  | empty
  | expiresIn (left : Int)
  deriving DecidableEq, Repr

/-- One QR display (the modal one or the inline one): status line, expiry line,
token line (the value assigned to `textContent`) and the canvas (the token whose
code is drawn, `none` when cleared). -/
structure QrView where
  status : Html := .empty
  expiry : ExpiryText := .empty
  tokenText : JSVal := .str ""
  canvas : Option JSVal := none
  deriving DecidableEq, Repr

/-- Controls that handlers disable while their request is in flight. -/
inductive Control where
  | stopBtn
  | takeBtn (btn : Nat)
  | downloadBtn (btn : Nat)
  deriving DecidableEq, Repr

/-- State of the teacher page: the shared variables, the two QR displays, the
inline panel and the modal, the disabled controls, the live intervals with the next
fresh handle, and the history of requests, alerts and saved files. -/
structure State extends Vars where
  qr : QrView := {}
  qrInline : QrView := {}
  inlinePanelShown : Bool := false
  modalShown : Bool := false
  disabled : List Control := []
  timers : List Timer := []
  nextTimer : Nat := 1
  sent : List Sent := []
  alerts : List String := []
  downloads : List String := []
  deriving DecidableEq, Repr

/-- Constants of the page: whether `bootstrap.Modal` exists (`qrModal` non-null),
whether `window.QRCode.toCanvas` exists, and the platform's date parser
`new Date(v).getTime()` (`none` is `NaN`). -/
structure Env where
  hasModal : Bool
  hasQrLib : Bool
  dateMs : JSVal → Option Int

/-- Whether the two `QRCode.toCanvas` calls of one `renderQr` report an error to
their callbacks. -/
structure Draw where
  mainErr : Bool := false
  inlineErr : Bool := false
  deriving DecidableEq, Repr

/-- `setStatus(msg, isError)`. -/
def setStatus (s : State) (msg : String) (isError : Bool) : State :=
  let cssClass := if isError then "text-danger" else "text-success"
  { s with qr := { s.qr with status := .span cssClass msg },
           qrInline := { s.qrInline with status := .span cssClass msg } }

/-- `renderQr(token)`. -/
def renderQr (env : Env) (s : State) (token : JSVal) (draw : Draw) : State :=
  let s := { s with qr := { s.qr with tokenText := token },
                    qrInline := { s.qrInline with tokenText := token } }
  if !env.hasQrLib then
    setStatus s "QR library failed to load." true
  else
    let s := if draw.mainErr then setStatus s "Failed to render QR." true
             else { s with qr := { s.qr with canvas := some token } }
    if draw.inlineErr then setStatus s "Failed to render QR." true
    else { s with qrInline := { s.qrInline with canvas := some token } }

/-- `clearInterval(h)`: a no-op on `null`. -/
def clearInterval (s : State) (h : Option Nat) : State :=
  match h with
  | none => s
  | some i => { s with timers := s.timers.filter (fun t => t.id != i) }

/-- `setInterval(callback, _)`: registers a live interval and returns its handle. -/
def setInterval (s : State) (kind : TimerKind) : State × Nat :=
  ({ s with timers := s.timers ++ [⟨s.nextTimer, kind⟩], nextTimer := s.nextTimer + 1 },
   s.nextTimer)

/-- Ceiling of `a / 1000`, the value of `Math.ceil(a / 1000)` for an integral `a` below
`2^53` in magnitude, as the difference of two times in milliseconds is. -/
def ceilDiv1000 (a : Int) : Int :=
  -((-a) / 1000)

/-- The seconds shown by the countdown,
`Math.max(0, Math.ceil((expiresAtMs - Date.now()) / 1000))`. -/
def secondsLeft (expiresAtMs now : Int) : Int :=
  max 0 (ceilDiv1000 (expiresAtMs - now))

/-- The callback of the countdown interval, run when the clock reads `now`. -/
def countdownTick (s : State) (now : Int) : State :=
  match s.expiresAtMs with
  | .num e =>
    if e = 0 then
      { s with qr := { s.qr with expiry := .empty },
               qrInline := { s.qrInline with expiry := .empty } }
    else
      { s with qr := { s.qr with expiry := .expiresIn (secondsLeft e now) },
               qrInline := { s.qrInline with expiry := .expiresIn (secondsLeft e now) } }
  | _ =>
    { s with qr := { s.qr with expiry := .empty },
             qrInline := { s.qrInline with expiry := .empty } }

/-- `startCountdown()`. -/
def startCountdown (s : State) : State :=
  let s := clearInterval s s.countdownTimer
  let (s, h) := setInterval s .countdown
  { s with countdownTimer := some h }

/-- `stopTimers()`. -/
def stopTimers (s : State) : State :=
  let s := clearInterval s s.pollTimer
  let s := clearInterval s s.countdownTimer
  { s with pollTimer := none, countdownTimer := none, expiresAtMs := .null }

/-- `clearQrDisplay()`. -/
def clearQrDisplay (s : State) : State :=
  { s with qr := { status := .empty, expiry := .empty, tokenText := .str "", canvas := none },
           qrInline := { status := .empty, expiry := .empty, tokenText := .str "",
                         canvas := none } }

/-- `closeQrModalUi()`: `qrModal.hide()`, or the fallback that strips the modal's
classes; either way the modal is no longer shown. -/
def closeQrModalUi (s : State) : State :=
  { s with modalShown := false }

/-- `fetch(...)`: the request is issued and recorded with the variables and live
intervals of that instant. -/
def fetch (s : State) (req : Request) : State :=
  { s with sent := s.sent ++ [⟨req, s.toVars, s.timers⟩] }

/-- How the synchronous segment of an `async` function ends: it returned a value,
or it is suspended at its `await` holding the local `k`. -/
inductive Entry (α κ : Type) where
  | returned (a : α)
  | suspended (k : κ)
  deriving DecidableEq, Repr

/-- `btn.disabled = b` for the control `c`. -/
def setDisabled (s : State) (c : Control) (b : Bool) : State :=
  if b then { s with disabled := c :: s.disabled.filter (fun d => d != c) }
  else { s with disabled := s.disabled.filter (fun d => d != c) }

/-- `alert(msg)`. -/
def alert (s : State) (msg : String) : State :=
  { s with alerts := s.alerts ++ [msg] }

/-- `refreshQr()` up to its `await`. -/
def refreshQr (s : State) : State × Entry Unit Unit :=
  if !s.sessionId.truthy then (s, .returned ())
  else (fetch s (.qr s.sessionId), .suspended ())

/-- `refreshQr()` from its `await` on, given the outcome of the round trip. -/
def refreshQr_resume (env : Env) (s : State) (r : FetchResult) (draw : Draw) : State :=
  match r with
  | .response ok (.value data) =>
    if !ok || !data.success.truthy then
      setStatus s (data.error.or (.str "Failed to refresh QR.")).toStr true
    else
      let s := renderQr env s data.token draw
      let s := { s with expiresAtMs := .ofTime (env.dateMs data.expires_at) }
      let s := startCountdown s
      setStatus s "QR updated." false
  | _ => setStatus s "Network error while refreshing QR." true

/-- The click handler of a `.take-attendance-btn` up to its `await`. -/
def takeAttendanceClick (s : State) (btn : Nat) : State :=
  let s := setDisabled s (.takeBtn btn) true
  fetch s (.start btn)

/-- The click handler of a `.take-attendance-btn` from its `await` on. -/
def takeAttendance_resume (env : Env) (s : State) (btn : Nat) (r : FetchResult)
    (draw : Draw) : State :=
  let s :=
    match r with
    | .response ok (.value data) =>
      if !ok || !data.success.truthy then
        alert s (data.error.or (.str "Could not start attendance.")).toStr
      else
        let s := stopTimers s
        let s := { s with sessionId := data.session_id }
        let s := renderQr env s data.token draw
        let s := { s with expiresAtMs := .ofTime (env.dateMs data.expires_at) }
        let s := startCountdown s
        let s := setStatus s "Session started." false
        let s := { s with inlinePanelShown := true }
        let s := if env.hasModal then { s with modalShown := true } else s
        let (s, h) := setInterval s .poll
        { s with pollTimer := some h }
    | _ => alert s "Network error while starting attendance."
  setDisabled s (.takeBtn btn) false

/-- `stopCurrentSession()` up to its `await`; a suspended call holds
`activeSessionId`. -/
def stopCurrentSession (s : State) : State × Entry Bool JSVal :=
  if !s.sessionId.truthy then (s, .returned true)
  else if s.isStopping then (s, .returned false)
  else
    let s := { s with isStopping := true }
    let s := stopTimers s
    let activeSessionId := s.sessionId
    (fetch s (.stop activeSessionId), .suspended activeSessionId)

/-- `stopCurrentSession()` from its `await` on: the state it leaves and the value it
returns. -/
def stopCurrentSession_resume (s : State) (activeSessionId : JSVal) (r : FetchResult) :
    State × Bool :=
  let (s, stopped) :=
    match r with
    | .response ok (.value data) =>
      if !ok || !data.success.truthy then
        let s := setStatus s (data.error.or (.str "Failed to stop session.")).toStr true
        ({ s with sessionId := activeSessionId }, false)
      else
        let s := setStatus s "Session stopped." false
        let s := { s with inlinePanelShown := false }
        let s := { s with sessionId := .null }
        (clearQrDisplay s, true)
    | _ =>
      let s := setStatus s "Network error while stopping session." true
      ({ s with sessionId := activeSessionId }, false)
  ({ s with isStopping := false }, stopped)

/-- Who called `stopCurrentSession`: the click handler of `stopBtn`, the inline stop
button (the function is its listener), or the modal's `hidden.bs.modal` handler. -/
inductive StopCaller where
  | button
  | inline
  | hidden
  deriving DecidableEq, Repr

/-- What the `stopBtn` click handler does once `stopCurrentSession()` has returned
`stopped`. -/
def stopBtn_after (s : State) (stopped : Bool) : State :=
  let s := if stopped then closeQrModalUi s else s
  setDisabled s .stopBtn false

/-- An `async` function suspended at its `await`. -/
inductive Task where
  | start (btn : Nat)
  | refresh
  | stop (activeSessionId : JSVal) (caller : StopCaller)
  deriving DecidableEq, Repr

/-- The page between two handlers: the state and the suspended functions. -/
structure Sys where
  ctl : State := {}
  tasks : List Task := []
  deriving DecidableEq, Repr

/-- What the event loop can run next: a click on a take-attendance button, the
response to a start request, a tick of the poll interval, the response to a refresh
request, a tick of the countdown interval, a call of `stopCurrentSession` by one of
its callers, the response to a stop request.  Responses name the suspended
function by its position in `tasks`.  The download handler shares no variable with
these handlers and is not part of the loop. -/
inductive Event where
  | clickTake (btn : Nat)
  | startResp (i : Nat) (r : FetchResult) (draw : Draw)
  | pollFire (h : Nat)
  | refreshResp (i : Nat) (r : FetchResult) (draw : Draw)
  | countdownFire (h : Nat) (now : Int)
  | stopCall (caller : StopCaller)
  | stopResp (i : Nat) (r : FetchResult)
  deriving DecidableEq, Repr

/-- A call of `stopCurrentSession()` by one of its three callers, run to the `await`
or to completion. -/
def stopCall (σ : Sys) (caller : StopCaller) : Option Sys :=
  match caller with
  | .button =>
    if Control.stopBtn ∈ σ.ctl.disabled then none
    else
      match stopCurrentSession (setDisabled σ.ctl .stopBtn true) with
      | (s, .returned stopped) => some { σ with ctl := stopBtn_after s stopped }
      | (s, .suspended k) => some { ctl := s, tasks := σ.tasks ++ [.stop k .button] }
  | .inline =>
    match stopCurrentSession σ.ctl with
    | (s, .returned _) => some { σ with ctl := s }
    | (s, .suspended k) => some { ctl := s, tasks := σ.tasks ++ [.stop k .inline] }
  | .hidden =>
    if σ.ctl.sessionId.truthy then
      match stopCurrentSession σ.ctl with
      | (s, .returned _) => some { σ with ctl := s }
      | (s, .suspended k) => some { ctl := s, tasks := σ.tasks ++ [.stop k .hidden] }
    else some { σ with ctl := clearQrDisplay σ.ctl }

/-- One turn of the event loop; `none` when the event cannot occur in `σ` (a click on
a disabled button, a tick of an interval that is not live, a response for a
function that is not suspended). -/
def step (env : Env) (e : Event) (σ : Sys) : Option Sys :=
  match e with
  | .clickTake btn =>
    if Control.takeBtn btn ∈ σ.ctl.disabled then none
    else some { ctl := takeAttendanceClick σ.ctl btn, tasks := σ.tasks ++ [.start btn] }
  | .startResp i r draw =>
    match σ.tasks.get? i with
    | some (.start btn) =>
      some { ctl := takeAttendance_resume env σ.ctl btn r draw, tasks := σ.tasks.eraseIdx i }
    | _ => none
  | .pollFire h =>
    if (⟨h, .poll⟩ : Timer) ∈ σ.ctl.timers then
      match refreshQr σ.ctl with
      | (s, .returned _) => some { σ with ctl := s }
      | (s, .suspended _) => some { ctl := s, tasks := σ.tasks ++ [.refresh] }
    else none
  | .refreshResp i r draw =>
    match σ.tasks.get? i with
    | some .refresh =>
      some { ctl := refreshQr_resume env σ.ctl r draw, tasks := σ.tasks.eraseIdx i }
    | _ => none
  | .countdownFire h now =>
    if (⟨h, .countdown⟩ : Timer) ∈ σ.ctl.timers then
      some { σ with ctl := countdownTick σ.ctl now }
    else none
  | .stopCall caller => stopCall σ caller
  | .stopResp i r =>
    match σ.tasks.get? i with
    | some (.stop k caller) =>
      let (s, stopped) := stopCurrentSession_resume σ.ctl k r
      let s := match caller with
        | .button => stopBtn_after s stopped
        | _ => s
      some { ctl := s, tasks := σ.tasks.eraseIdx i }
    | _ => none

/-- Runs a sequence of events; `none` as soon as one of them cannot occur. -/
def run (env : Env) : List Event → Sys → Option Sys
  | [], σ => some σ
  | e :: es, σ => (step env e σ).bind (run env es)

/-- The page after `setup()`: no session, no interval, nothing suspended. -/
def init : Sys := {}

/-- Number of stop requests in a history. -/
def stopRequests (l : List Sent) : Nat :=
  l.countP (fun x => match x.req with | .stop _ => true | _ => false)

/-- The event delivers the response of a stop request. -/
def Event.isStopResp : Event → Bool
  | .stopResp _ _ => true
  | _ => false

/-- The characters matched by the class in the first pattern of `sanitizeFilename`,
by code: backslash (92), slash (47), colon (58), asterisk (42), question mark (63),
double quote (34), `<` (60), `>` (62) and the vertical bar (124). -/
def isForbidden (c : Char) : Bool :=
  c.toNat = 92 || c.toNat = 47 || c.toNat = 58 || c.toNat = 42 || c.toNat = 63 ||
  c.toNat = 34 || c.toNat = 60 || c.toNat = 62 || c.toNat = 124

/-- The second replacement of `sanitizeFilename`, on the characters of a string:
every maximal run of white space (the class `\s`) becomes one space (code 32).
`inRun` tells that the character before belongs to the run being replaced. -/
def collapseSpaces (inRun : Bool) : List Char → List Char
  | [] => []
  | c :: cs =>
    if isJsSpace c then
      if inRun then collapseSpaces true cs else Char.ofNat 32 :: collapseSpaces true cs
    else c :: collapseSpaces false cs

/-- The local `cleaned` of `sanitizeFilename(name)`, `none` being a missing name:
`(name || '')` without the forbidden characters, its white space collapsed, trimmed.
(The patterns match single BMP characters, so working on the characters of the
string is working on its UTF-16 units.) -/
def cleaned (name : Option String) : String :=
  jsTrim ⟨collapseSpaces false ((name.getD "").data.filter (fun c => !isForbidden c))⟩

/-- `sanitizeFilename(name)`. -/
def sanitizeFilename (name : Option String) : String :=
  if cleaned name = "" then "attendance" else cleaned name

/-- No white space other than single spaces: every white-space character is the
space (code 32) and no two white-space characters are adjacent. -/
def Tidy (l : List Char) : Prop :=
  (∀ c ∈ l, isJsSpace c = true → c = Char.ofNat 32) ∧
  l.Chain' (fun a b => ¬ (isJsSpace a = true ∧ isJsSpace b = true))

/-- Text with no forbidden character, tidy white space, and no white space at either
end. -/
def Clean (l : List Char) : Prop :=
  (∀ c ∈ l, isForbidden c = false) ∧ Tidy l ∧
  (∀ c, l.head? = some c → isJsSpace c = false) ∧
  (∀ c, l.getLast? = some c → isJsSpace c = false)

/-- Outcome of the download round trip: the `fetch` promise rejects, or a response
arrives with its `ok` flag, with whether its content type includes
`application/json`, and with the way `response.json()` and `response.blob()` would
settle (the handler awaits one of the two). -/
inductive DownloadResult where
  | rejects (msg : String)
  | response (ok : Bool) (jsonType : Bool) (json : Parsed) (blob : Settled)
  deriving DecidableEq, Repr

/-- The click handler of a `.download-attendance-btn` up to its `await`, with the
local `downloadName` it computes from the button's `data-download-name` (`none` when
absent) and `data-classroom-id`. -/
def downloadClick (s : State) (btn : Nat) (downloadNameAttr : Option String)
    (classroomId : String) : State × String :=
  let raw :=
    match downloadNameAttr with
    | some n => if n = "" then "attendance_" ++ classroomId else n
    | none => "attendance_" ++ classroomId
  let s := setDisabled s (.downloadBtn btn) true
  (fetch s (.download btn), sanitizeFilename (some raw))

/-- The click handler of a `.download-attendance-btn` from its `await` on.  A body
that does not parse is replaced by `{}`; reading `error` off a `null` body throws
into the `catch` block. -/
def download_resume (s : State) (btn : Nat) (downloadName : String)
    (r : DownloadResult) : State :=
  let s :=
    match r with
    | .rejects _ => alert s "Network error while downloading attendance."
    | .response ok jsonType json blob =>
      if !ok || jsonType then
        match json with
        | .rejects _ => alert s "Unable to download attendance right now."
        | .null _ => alert s "Network error while downloading attendance."
        | .value data =>
          alert s (data.error.or (.str "Unable to download attendance right now.")).toStr
      else
        match blob with
        | .fulfilled => { s with downloads := s.downloads ++ [downloadName ++ ".xls"] }
        | .rejected => alert s "Network error while downloading attendance."
  setDisabled s (.downloadBtn btn) false

/-- The live intervals `timers`, the next fresh handle and the two timer variables
agree: handles are distinct and below the next fresh one, and an interval is live
exactly when it is the countdown interval `countdownTimer` refers to or the poll
interval `pollTimer` refers to. -/
def TimersOk (timers : List Timer) (next : Nat) (poll countdown : Option Nat) : Prop :=
  (timers.map Timer.id).Nodup ∧
  (∀ t ∈ timers, t.id < next) ∧
  (∀ t, t ∈ timers ↔
    (t.kind = .countdown ∧ countdown = some t.id) ∨ (t.kind = .poll ∧ poll = some t.id))

/-- The timer invariant of a page. -/
def TimerInv (s : State) : Prop :=
  TimersOk s.timers s.nextTimer s.pollTimer s.countdownTimer

/-- `clearInterval(h)` on the list of live intervals. -/
def dropTimer (h : Option Nat) (timers : List Timer) : List Timer :=
  match h with
  | none => timers
  | some i => timers.filter (fun t => t.id != i)

/-- The suspended function is a `stopCurrentSession`. -/
def Task.isStop : Task → Bool
  | .stop _ _ => true
  | _ => false

/-- Number of `stopCurrentSession` calls suspended at their `await`. -/
def stopsInFlight (σ : Sys) : Nat :=
  σ.tasks.countP Task.isStop

/-- A page whose `bootstrap` and `QRCode` libraries loaded and whose date parser reads
a number as milliseconds. -/
def sampleEnv : Env :=
  { hasModal := true
    hasQrLib := true
    dateMs := fun v => match v with
      | .num n => some n
      | _ => none }

/-- A successful start response: session `"s1"`, token `"abc"`. -/
def okStart : FetchResult :=
  .response true (.value { success := .bool true, session_id := .str "s1",
                           token := .str "abc", expires_at := .num 30000 })

/-- A successful refresh response: token `"def"`. -/
def okRefresh : FetchResult :=
  .response true (.value { success := .bool true, token := .str "def",
                           expires_at := .num 33000 })

/-- A successful stop response. -/
def okStop : FetchResult :=
  .response true (.value { success := .bool true })

/-- The re-entrancy guard as an invariant: `isStopping` is set exactly while one
`stopCurrentSession` is suspended, and never are two suspended. -/
def GuardInv (σ : Sys) : Prop :=
  stopsInFlight σ = σ.ctl.isStopping.toNat

/-- The page after a click on the take-attendance button of classroom 7 whose start
request succeeded. -/
def startedSample : Sys :=
  (run sampleEnv [.clickTake 7, .startResp 0 okStart {}] init).getD init

/-- `startedSample` after a click on the stop button: the stop request is in flight. -/
def stoppingSample : Sys :=
  (step sampleEnv (.stopCall .button) startedSample).getD init

/-- `stoppingSample` after a click on another take-attendance button and a dismissal
of the modal, the stop request still in flight. -/
def stoppingLaterSample : Sys :=
  (run sampleEnv [.clickTake 8, .stopCall .hidden] stoppingSample).getD init

/-- No timer is set and no interval is live. -/
def TimersOff (s : State) : Prop :=
  s.pollTimer = none ∧ s.countdownTimer = none ∧ s.expiresAtMs = .null ∧ s.timers = []

/-- The event is a start or refresh response that passes the success test: the two
events that create intervals. -/
def Event.restartsTimers : Event → Bool
  | .startResp _ r _ => (succeeded r).isSome
  | .refreshResp _ r _ => (succeeded r).isSome
  | _ => false

/-- A stop response with a non-2xx status and an error body. -/
def stopRejected : FetchResult :=
  .response false (.value { success := .bool false, error := .str "Session not found." })

/-- `stoppingLaterSample` after the failed response to its stop request. -/
def stopFailedSample : Sys :=
  (step sampleEnv (.stopResp 0 stopRejected) stoppingLaterSample).getD init

/-- A page with a session running: session `"s1"`, its countdown interval `1` and its
poll interval `2` live, the token expiring at 30000 ms. -/
def activeSample : State :=
  { sessionId := .str "s1"
    pollTimer := some 2
    countdownTimer := some 1
    expiresAtMs := .num 30000
    timers := [⟨1, .countdown⟩, ⟨2, .poll⟩]
    nextTimer := 3 }

end Teacher

/-! ## Student dashboard -/

namespace Student

/-- The two values `cameraMode` takes. -/
inductive CameraMode where
  | register
  | attendance
  deriving DecidableEq, Repr

/-- A request handed to `fetch`: the token validation with its JSON body, the face
registration, or the face verification with the attendance id attached. -/
inductive Request where
  | scan (token : String) (classroom_id : JSNum)
  | register (image : String)
  | verify (image : String) (attendance_id : JSVal)
  deriving DecidableEq, Repr

/-- A callback scheduled with `setTimeout`: the one that follows an accepted token
(600 ms), `startCamera` (250 ms), `startScanner` (300 ms), the page reload (900 ms)
and the closing of the camera modal (1200 ms). -/
inductive Timeout where
  | scanAccepted
  | startCamera
  | startScanner
  | reload
  | hideCameraModal
  deriving DecidableEq, Repr

/-- A method called on an `Html5Qrcode` instance, the instance given by its number. -/
inductive ScannerCall where
  | start (id : Nat)
  | stop (id : Nat)
  | clear (id : Nat)
  deriving DecidableEq, Repr

/-- State of the student page: the variables of `setup()`, the parts of the document
the handlers write, the history of requests, alerts and stopped camera tracks, and
the callbacks scheduled with `setTimeout` that have not run yet.  A media stream is
the list of its tracks' ids.  `qrScanner` holds the number of the `Html5Qrcode`
instance, `scannerCalls` the calls made on the instances, `nextScanner` the number
the next instance gets. -/
structure State where
  faceVerified : Bool := false
  cameraMode : CameraMode := .register
  pendingAttendanceId : JSVal := .null
  selectedClassroomId : JSNum := .null
  stream : Option (List Nat) := none
  qrScanner : Option Nat := none
  scannerRunning : Bool := false
  cameraStatus : Html := .empty
  scanStatus : Html := .empty
  captureBtnDisabled : Bool := false
  captureBtnText : String := ""
  cameraModalLabel : String := ""
  manualTokenInput : String := ""
  videoSrc : Option (List Nat) := none
  faceRegisterBtnVerified : Bool := false
  scanModalShown : Bool := false
  cameraModalShown : Bool := false
  sent : List Request := []
  alerts : List String := []
  timeouts : List Timeout := []
  stoppedTracks : List Nat := []
  scannerCalls : List ScannerCall := []
  nextScanner : Nat := 1
  deriving DecidableEq, Repr

/-- Constants of the page: whether `bootstrap.Modal` exists (`scanModal` and
`cameraModal` non-null). -/
structure Env where
  hasModal : Bool

/-- The text of the membership error that is also raised as an alert. -/
def notInClass : String :=
  "You don't belong to this class."

/-- `fetch(...)`: the request is issued and recorded. -/
def fetch (s : State) (req : Request) : State :=
  { s with sent := s.sent ++ [req] }

/-- `alert(msg)`. -/
def alert (s : State) (msg : String) : State :=
  { s with alerts := s.alerts ++ [msg] }

/-- `setTimeout(callback, _)`. -/
def setTimeout (s : State) (t : Timeout) : State :=
  { s with timeouts := s.timeouts ++ [t] }

/-- `setCameraMode(mode)`. -/
def setCameraMode (s : State) (mode : CameraMode) : State :=
  match mode with
  | .attendance =>
    { s with cameraMode := mode, cameraModalLabel := "Verify Face for Attendance",
             captureBtnText := "Verify Face" }
  | .register =>
    { s with cameraMode := mode, cameraModalLabel := "Register Facial Biometrics",
             captureBtnText := "Capture Photo" }

/-- How the synchronous segment of an `async` function ends: it returned, or it is
suspended at its `await`. -/
inductive Entry where
  | returned
  | suspended
  deriving DecidableEq, Repr

/-- `submitScannedToken(tokenText)` up to its `await`; `none` is a `null` or
`undefined` argument. -/
def submitScannedToken (s : State) (tokenText : Option String) : State × Entry :=
  let token := jsTrim (tokenText.getD "")
  if token = "" then
    ({ s with scanStatus := .span "text-danger" "Token cannot be empty." }, .returned)
  else
    let s := { s with scanStatus := .span "text-info" "Validating QR..." }
    (fetch s (.scan token s.selectedClassroomId), .suspended)

/-- `submitScannedToken(tokenText)` from its `await` on, given the outcome of the
round trip. -/
def submitScannedToken_resume (s : State) (r : FetchResult) : State :=
  match r with
  | .response ok (.value data) =>
    if !ok || !data.success.truthy then
      let s := if data.error = .str notInClass then alert s notInClass else s
      { s with
          scanStatus := .span "text-danger" (data.error.or (.str "QR scan failed.")).toStr }
    else
      let s := { s with pendingAttendanceId := data.attendance_id }
      let s := { s with
        scanStatus := .span "text-success" "QR accepted. Starting face verification..." }
      setTimeout s .scanAccepted
  | _ => { s with scanStatus := .span "text-danger" "Network error while validating QR." }

/-- The callback scheduled by an accepted token: closes the scan modal, switches to
attendance mode and opens the camera modal. -/
def scanAcceptedTimeout (env : Env) (s : State) : State :=
  let s := if env.hasModal then { s with scanModalShown := false } else s
  let s := setCameraMode s .attendance
  if env.hasModal then setTimeout { s with cameraModalShown := true } .startCamera
  else s

/-- The `hidden.bs.modal` handler of the camera modal. -/
def cameraModalHidden (s : State) : State :=
  let s :=
    match s.stream with
    | some tracks => { s with stoppedTracks := s.stoppedTracks ++ tracks, stream := none }
    | none => s
  let s := { s with videoSrc := none }
  let s := { s with cameraStatus := .empty }
  let s := { s with captureBtnDisabled := false }
  let s := setCameraMode s .register
  { s with pendingAttendanceId := .null }

/-- The callback that closes the camera modal after a verification:
`cameraModal.hide()`, after which the modal's `hidden.bs.modal` handler runs.  On a
modal that is not shown `hide()` does nothing. -/
def hideCameraModalTimeout (env : Env) (s : State) : State :=
  if env.hasModal && s.cameraModalShown then
    cameraModalHidden { s with cameraModalShown := false }
  else s

/-- The `catch` block of the capture handler, `message` being `err.message`. -/
def captureFailed (s : State) (message : String) : State :=
  let s := { s with cameraStatus := .span "text-danger" message }
  { s with captureBtnDisabled := false }

/-- The click handler of `captureBtn` up to its `await`; `imageData` is the encoded
frame. -/
def captureClick (s : State) (imageData : String) : State × Entry :=
  let s := { s with captureBtnDisabled := true }
  let s := { s with cameraStatus := .processing }
  match s.cameraMode with
  | .attendance =>
    if !s.pendingAttendanceId.truthy then
      let s := { s with
        cameraStatus := .span "text-danger" "Missing attendance context. Scan QR again." }
      ({ s with captureBtnDisabled := false }, .returned)
    else (fetch s (.verify imageData s.pendingAttendanceId), .suspended)
  | .register => (fetch s (.register imageData), .suspended)

/-- The body of a capture round trip that passed the test
`!response.ok || (!data.success && data.match !== false)`, `none` for every failed
one. -/
def captureSucceeded : FetchResult → Option Body
  | .response true (.value data) =>
    if !data.success.truthy && data.match_ != .bool false then none else some data
  | _ => none

/-- The click handler of `captureBtn` from its `await` on. -/
def capture_resume (s : State) (r : FetchResult) : State :=
  match r with
  | .rejects msg => captureFailed s msg
  | .response _ (.rejects msg) => captureFailed s msg
  | .response _ (.null msg) => captureFailed s msg
  | .response ok (.value data) =>
    if !ok || (!data.success.truthy && data.match_ != .bool false) then
      captureFailed s (data.error.or (.str "Request failed")).toStr
    else
      match s.cameraMode with
      | .register =>
        if data.success.truthy then
          let s := { s with faceVerified := true }
          let s := { s with faceRegisterBtnVerified := true }
          let s := { s with
            cameraStatus := .span "text-success" "Face registered successfully!" }
          setTimeout s .reload
        else s
      | .attendance =>
        let s :=
          if data.match_.truthy then
            { s with
                cameraStatus :=
                  .scoreSpan "text-success" "Attendance marked. Score: " data.score }
          else
            { s with
                cameraStatus :=
                  .scoreSpan "text-danger" "Face verification failed. Score: " data.score }
        setTimeout s .hideCameraModal

/-- What the camera checks of `getCameraBlockReason()` find: `window.isSecureContext`,
`navigator.mediaDevices.getUserMedia`, and whether `Html5Qrcode` is defined. -/
structure Platform where
  isSecureContext : Bool
  hasGetUserMedia : Bool
  hasHtml5Qrcode : Bool

/-- `getCameraBlockReason()`. -/
def getCameraBlockReason (p : Platform) : String :=
  if !p.isSecureContext then
    "Camera is blocked because this page is not running on HTTPS (or localhost). Open the app over HTTPS."
  else if !p.hasGetUserMedia then "Camera API is not available in this browser."
  else ""

/-- `startCamera()` up to the `getUserMedia` call; suspended means the request for the
camera is pending. -/
def startCamera (p : Platform) (s : State) : State × Entry :=
  if getCameraBlockReason p != "" then
    ({ s with cameraStatus := .span "text-danger" (getCameraBlockReason p) }, .returned)
  else (s, .suspended)

/-- The `then` and `catch` callbacks of `startCamera()`: `some tracks` is the granted
media stream, `none` a refusal. -/
def startCamera_settled (s : State) (grant : Option (List Nat)) : State :=
  match grant with
  | some tracks =>
    let s := { s with stream := some tracks }
    let s := { s with videoSrc := s.stream }
    { s with
        cameraStatus := .span "text-success" "Camera ready. Position your face in the frame." }
  | none =>
    { s with
        cameraStatus :=
          .span "text-danger" "Error accessing camera. Please allow camera permissions." }

/-- `stopScanner()` up to its first `await`: with a scanner held and running it calls
`qrScanner.stop()` and waits; otherwise it clears `scannerRunning` and returns. -/
def stopScanner (s : State) : State × Entry :=
  match s.qrScanner with
  | some id =>
    if s.scannerRunning then
      ({ s with scannerCalls := s.scannerCalls ++ [.stop id] }, .suspended)
    else ({ s with scannerRunning := false }, .returned)
  | none => ({ s with scannerRunning := false }, .returned)

/-- `stopScanner()` from the settling of `qrScanner.stop()` to its second `await`: the
`catch` block is empty, so either way `qrScanner.clear()` is called next.  (A `stop()`
or `clear()` that throws at once is the `rejected` case with nothing run in
between.) -/
def stopScanner_afterStop (s : State) (o : Settled) : State :=
  let s :=
    match o with
    | .fulfilled => s
    | .rejected => s
  match s.qrScanner with
  | some id => { s with scannerCalls := s.scannerCalls ++ [.clear id] }
  | none => s

/-- `stopScanner()` from the settling of `qrScanner.clear()` on: the `catch` block is
empty, `scannerRunning` is cleared and the function returns. -/
def stopScanner_afterClear (s : State) (o : Settled) : State × Entry :=
  let s :=
    match o with
    | .fulfilled => s
    | .rejected => s
  ({ s with scannerRunning := false }, .returned)

/-- `startScanner()` up to `await stopScanner()`: the checks that return early. -/
def startScanner_checks (p : Platform) (s : State) : State × Entry :=
  let s := { s with scanStatus := .span "text-muted" "Point camera at teacher QR code." }
  if getCameraBlockReason p != "" then
    ({ s with scanStatus := .span "text-danger" (getCameraBlockReason p) }, .returned)
  else if !p.hasHtml5Qrcode then
    ({ s with
        scanStatus :=
          .span "text-danger"
            "QR scanner library failed to load. Please refresh and try again." },
     .returned)
  else (s, .suspended)

/-- `startScanner()` from the return of `stopScanner()` to `await qrScanner.start(...)`:
a new `Html5Qrcode` is created and started. -/
def startScanner_create (s : State) : State :=
  let s := { s with qrScanner := some s.nextScanner, nextScanner := s.nextScanner + 1 }
  let s := { s with scannerRunning := true }
  match s.qrScanner with
  | some id => { s with scannerCalls := s.scannerCalls ++ [.start id] }
  | none => s

/-- `startScanner()` from the settling of `qrScanner.start(...)` on. -/
def startScanner_afterStart (s : State) (o : Settled) : State :=
  match o with
  | .fulfilled => s
  | .rejected =>
    let s := { s with scanStatus := .span "text-danger" "Unable to start QR scanner." }
    { s with scannerRunning := false }

/-- A verification response with status 2xx reporting a face that does not match. -/
def verifyMismatch : FetchResult :=
  .response true (.value { success := .bool false, match_ := .bool false,
                           score := .other "0.3121" })

/-- A student whose scanner number 1 is running. -/
def scanningSample : State :=
  { faceVerified := true
    qrScanner := some 1
    scannerRunning := true
    scanModalShown := true
    scannerCalls := [.start 1]
    nextScanner := 2 }

/-- A student in attendance mode holding the pending attendance id 42. -/
def pendingSample : State :=
  { faceVerified := true
    cameraMode := .attendance
    pendingAttendanceId := .num 42
    cameraModalShown := true }

/-- The validation response for a student who is not in the class. -/
def notMember : FetchResult :=
  .response false (.value { success := .bool false,
                            error := .str "You don't belong to this class." })

/-- A verification response with a non-2xx status and an error body. -/
def verifyRejected : FetchResult :=
  .response false (.value { success := .bool false, error := .str "No face detected." })

/-- What the caller of `stopScanner()` does once it has returned: nothing (the scan
modal's `hidden.bs.modal` handler), `submitScannedToken(decodedText)` (the decode
callback `onScanSuccess`), `submitScannedToken(manualTokenInput.value)` (the manual
submit handlers), or the rest of `startScanner()`. -/
inductive After where
  | nothing
  | submit (decodedText : String)
  | submitManual
  | startScanner
  deriving DecidableEq, Repr

/-- A function of the student page suspended at an `await`, or a promise whose
callbacks are pending: the camera request of `startCamera`, `qrScanner.start(...)`,
`qrScanner.stop()` and `qrScanner.clear()` inside `stopScanner` (with what its caller
does next), the token validation, the capture submission. -/
inductive Task where
  | getUserMedia
  | scannerStart
  | scannerStop (k : After)
  | scannerClear (k : After)
  | scan
  | capture
  deriving DecidableEq, Repr

/-- The student page between two handlers: the state, the suspended functions, and
whether the decode loop of the scanner library is running (from the moment
`qrScanner.start(...)` is fulfilled until a `qrScanner.stop()` is). -/
structure Sys where
  ctl : State := {}
  tasks : List Task := []
  scanning : Bool := false
  deriving DecidableEq, Repr

/-- What the event loop of the student page can run next.  Settlements and responses
name the suspended function by its position in `tasks`, a scheduled callback by its
position in `timeouts`. -/
inductive Event where
  | clickFaceRegister
  | clickMarkAttendance (classroomId : JSNum)
  | timeout (i : Nat)
  | cameraSettled (i : Nat) (grant : Option (List Nat))
  | dismissCameraModal
  | dismissScanModal
  | scannerStartSettled (i : Nat) (o : Settled)
  | decode (decodedText : String)
  | scannerStopSettled (i : Nat) (o : Settled)
  | scannerClearSettled (i : Nat) (o : Settled)
  | typeToken (text : String)
  | manualSubmit
  | scanResp (i : Nat) (r : FetchResult)
  | clickCapture (imageData : String)
  | captureResp (i : Nat) (r : FetchResult)
  deriving DecidableEq, Repr

/-- A call of `submitScannedToken(tokenText)`, run to its `await` or to its return. -/
def callSubmit (σ : Sys) (tokenText : Option String) : Sys :=
  match submitScannedToken σ.ctl tokenText with
  | (s, .returned) => { σ with ctl := s }
  | (s, .suspended) => { σ with ctl := s, tasks := σ.tasks ++ [.scan] }

/-- What runs when the `stopScanner()` a handler awaited has returned. -/
def runAfter (σ : Sys) (k : After) : Sys :=
  match k with
  | .nothing => σ
  | .submit decodedText => callSubmit σ (some decodedText)
  | .submitManual => callSubmit σ (some σ.ctl.manualTokenInput)
  | .startScanner =>
    { σ with ctl := startScanner_create σ.ctl, tasks := σ.tasks ++ [.scannerStart] }

/-- `await stopScanner()` followed by `k`: when `stopScanner` returns without
waiting, `k` runs before any other handler. -/
def awaitStopScanner (σ : Sys) (k : After) : Sys :=
  match stopScanner σ.ctl with
  | (s, .returned) => runAfter { σ with ctl := s } k
  | (s, .suspended) => { σ with ctl := s, tasks := σ.tasks ++ [.scannerStop k] }

/-- The `hidden.bs.modal` handler of the scan modal: `stopScanner()` is called and not
awaited, then the scan status and the manual token input are cleared. -/
def scanModalHidden (σ : Sys) : Sys :=
  let σ := awaitStopScanner σ .nothing
  { σ with ctl := { σ.ctl with scanStatus := .empty, manualTokenInput := "" } }

/-- The click handler of `faceRegisterBtn`. -/
def faceRegisterClick (env : Env) (s : State) : State :=
  if s.faceVerified then alert s "Your face is already verified!"
  else
    let s := setCameraMode s .register
    if env.hasModal then setTimeout { s with cameraModalShown := true } .startCamera
    else s

/-- The click handler of a `.mark-attendance-btn`; `classroomId` is
`parseInt(btn.dataset.classroomId, 10)`. -/
def markAttendanceClick (env : Env) (s : State) (classroomId : JSNum) : State :=
  if !s.faceVerified then alert s "Please register facial biometrics first."
  else
    let s := { s with selectedClassroomId := classroomId }
    if env.hasModal then setTimeout { s with scanModalShown := true } .startScanner
    else s

/-- A scheduled callback runs.  When the callback closes a shown modal, the modal's
`hidden.bs.modal` handler is run with it.  The page reload is not part of the
loop. -/
def runTimeout (env : Env) (p : Platform) (σ : Sys) (t : Timeout) : Option Sys :=
  match t with
  | .scanAccepted =>
    if env.hasModal && σ.ctl.scanModalShown then
      some (scanModalHidden { σ with ctl := scanAcceptedTimeout env σ.ctl })
    else some { σ with ctl := scanAcceptedTimeout env σ.ctl }
  | .startCamera =>
    match startCamera p σ.ctl with
    | (s, .returned) => some { σ with ctl := s }
    | (s, .suspended) => some { σ with ctl := s, tasks := σ.tasks ++ [.getUserMedia] }
  | .startScanner =>
    match startScanner_checks p σ.ctl with
    | (s, .returned) => some { σ with ctl := s }
    | (s, .suspended) => some (awaitStopScanner { σ with ctl := s } .startScanner)
  | .reload => none
  | .hideCameraModal => some { σ with ctl := hideCameraModalTimeout env σ.ctl }

/-- One turn of the event loop of the student page; `none` when the event cannot
occur (a callback that is not scheduled, a settlement for a function that is not
suspended, a dismissal of a modal that is not shown, a decode callback while the
decode loop is not running, a click on the disabled capture control). -/
def step (env : Env) (p : Platform) (e : Event) (σ : Sys) : Option Sys :=
  match e with
  | .clickFaceRegister => some { σ with ctl := faceRegisterClick env σ.ctl }
  | .clickMarkAttendance classroomId =>
    some { σ with ctl := markAttendanceClick env σ.ctl classroomId }
  | .timeout i =>
    match σ.ctl.timeouts.get? i with
    | some t =>
      runTimeout env p { σ with ctl := { σ.ctl with timeouts := σ.ctl.timeouts.eraseIdx i } } t
    | none => none
  | .cameraSettled i grant =>
    match σ.tasks.get? i with
    | some .getUserMedia =>
      some { σ with ctl := startCamera_settled σ.ctl grant, tasks := σ.tasks.eraseIdx i }
    | _ => none
  | .dismissCameraModal =>
    if σ.ctl.cameraModalShown then
      some { σ with ctl := cameraModalHidden { σ.ctl with cameraModalShown := false } }
    else none
  | .dismissScanModal =>
    if σ.ctl.scanModalShown then
      some (scanModalHidden { σ with ctl := { σ.ctl with scanModalShown := false } })
    else none
  | .scannerStartSettled i o =>
    match σ.tasks.get? i with
    | some .scannerStart =>
      some { ctl := startScanner_afterStart σ.ctl o, tasks := σ.tasks.eraseIdx i,
             scanning := o == .fulfilled }
    | _ => none
  | .decode decodedText =>
    if σ.scanning then some (awaitStopScanner σ (.submit decodedText)) else none
  | .scannerStopSettled i o =>
    match σ.tasks.get? i with
    | some (.scannerStop k) =>
      some { ctl := stopScanner_afterStop σ.ctl o,
             tasks := σ.tasks.eraseIdx i ++ [.scannerClear k],
             scanning := if o == .fulfilled then false else σ.scanning }
    | _ => none
  | .scannerClearSettled i o =>
    match σ.tasks.get? i with
    | some (.scannerClear k) =>
      some (runAfter { σ with ctl := (stopScanner_afterClear σ.ctl o).1,
                              tasks := σ.tasks.eraseIdx i } k)
    | _ => none
  | .typeToken text => some { σ with ctl := { σ.ctl with manualTokenInput := text } }
  | .manualSubmit => some (awaitStopScanner σ .submitManual)
  | .scanResp i r =>
    match σ.tasks.get? i with
    | some .scan =>
      some { σ with ctl := submitScannedToken_resume σ.ctl r, tasks := σ.tasks.eraseIdx i }
    | _ => none
  | .clickCapture imageData =>
    if σ.ctl.captureBtnDisabled then none
    else
      match captureClick σ.ctl imageData with
      | (s, .returned) => some { σ with ctl := s }
      | (s, .suspended) => some { σ with ctl := s, tasks := σ.tasks ++ [.capture] }
  | .captureResp i r =>
    match σ.tasks.get? i with
    | some .capture =>
      some { σ with ctl := capture_resume σ.ctl r, tasks := σ.tasks.eraseIdx i }
    | _ => none

/-- Runs a sequence of events; `none` as soon as one of them cannot occur. -/
def run (env : Env) (p : Platform) : List Event → Sys → Option Sys
  | [], σ => some σ
  | e :: es, σ => (step env p e σ).bind (run env p es)

/-- The page after `setup()`, `faceVerified` read from the page's configuration. -/
def init (faceVerified : Bool) : Sys :=
  { ctl := { faceVerified := faceVerified } }

/-- A page whose libraries loaded, served over HTTPS, in a browser with a camera. -/
def samplePlatform : Platform :=
  { isSecureContext := true
    hasGetUserMedia := true
    hasHtml5Qrcode := true }

end Student

end SAMS

/-! ## Teacher dashboard: theorems -/

namespace SAMS.Teacher

theorem ceilDiv1000_eq_ceil (a : Int) : ceilDiv1000 a = ⌈(a : ℚ) / 1000⌉ := by
  unfold ceilDiv1000
  have h : ((-a) / 1000 : Int) = ⌊((-a : Int) : ℚ) / ((1000 : Nat) : ℚ)⌋ := by
    rw [Rat.floor_intCast_div_natCast]
    rfl
  rw [h, ← Int.ceil_neg]
  congr 1
  push_cast
  ring

theorem ceilDiv1000_mono {a b : Int} (h : a ≤ b) : ceilDiv1000 a ≤ ceilDiv1000 b := by
  unfold ceilDiv1000
  have : (-b) / 1000 ≤ (-a) / 1000 := Int.ediv_le_ediv (by norm_num) (by omega)
  omega

theorem secondsLeft_nonneg (e now : Int) : 0 ≤ secondsLeft e now := by
  unfold secondsLeft
  exact le_max_left _ _

theorem secondsLeft_antitone (e : Int) {now1 now2 : Int} (h : now1 ≤ now2) :
    secondsLeft e now2 ≤ secondsLeft e now1 := by
  unfold secondsLeft
  exact max_le_max (le_refl 0) (ceilDiv1000_mono (by omega))

/-- C6: take two redraws of the countdown at clock readings `now1 ≤ now2`, each
with a non-zero expiry in `expiresAtMs` (`null`, `NaN` and `0` blank the line).  Each
shows `secondsLeft` of the expiry it finds, which is
`max(0, ceil((expiresAtMs - now) / 1000))`; the later value is never negative, it
does not exceed the earlier one when the expiry is the same, and it can exceed the
earlier one only when `expiresAtMs` was replaced in between. -/
theorem countdown_non_increasing (s1 s2 : State) (e1 e2 now1 now2 : Int)
    (h1 : s1.expiresAtMs = .num e1) (h2 : s2.expiresAtMs = .num e2)
    (he1 : e1 ≠ 0) (he2 : e2 ≠ 0) (hle : now1 ≤ now2) :
    (countdownTick s1 now1).qr.expiry = .expiresIn (secondsLeft e1 now1) ∧
    (countdownTick s2 now2).qr.expiry = .expiresIn (secondsLeft e2 now2) ∧
    (countdownTick s2 now2).qrInline.expiry = (countdownTick s2 now2).qr.expiry ∧
    secondsLeft e2 now2 = max 0 ⌈((e2 - now2 : Int) : ℚ) / 1000⌉ ∧
    0 ≤ secondsLeft e2 now2 ∧
    (e1 = e2 → secondsLeft e2 now2 ≤ secondsLeft e1 now1) ∧
    (secondsLeft e1 now1 < secondsLeft e2 now2 → e1 ≠ e2) := by
  refine ⟨by simp [countdownTick, h1, he1], by simp [countdownTick, h2, he2],
    by simp [countdownTick, h2, he2], ?_, secondsLeft_nonneg _ _, ?_, ?_⟩
  · simp only [secondsLeft, ceilDiv1000_eq_ceil]
  · intro h
    subst h
    exact secondsLeft_antitone _ hle
  · intro hlt h
    subst h
    exact absurd (secondsLeft_antitone e1 hle) (not_le.mpr hlt)

theorem countdown_non_increasing_witness :
    (countdownTick { expiresAtMs := .num 30000 } 1200).qr.expiry = .expiresIn 29 ∧
    (countdownTick { expiresAtMs := .num 30000 } 1700).qr.expiry = .expiresIn 29 ∧
    secondsLeft 30000 1700 ≤ secondsLeft 30000 1200 := by
  have h := countdown_non_increasing { expiresAtMs := .num 30000 }
    { expiresAtMs := .num 30000 } 30000 30000 1200 1700 rfl rfl (by decide) (by decide)
    (by decide)
  exact ⟨h.1, h.2.1, h.2.2.2.2.2.1 rfl⟩

/-- C3: a call of `stopCurrentSession` with a session held and no stop in flight
issues exactly one request, the stop request for the held session, and at the
instant it is issued `pollTimer`, `countdownTimer` and `expiresAtMs` are already
`null` and neither interval the two variables referred to is live any more. -/
theorem stop_cancels_timers_before_request (s : State)
    (hs : s.sessionId.truthy = true) (hn : s.isStopping = false) :
    ∃ entry : Sent,
      (stopCurrentSession s).1.sent = s.sent ++ [entry] ∧
      (stopCurrentSession s).2 = .suspended s.sessionId ∧
      entry.req = .stop s.sessionId ∧
      entry.vars.pollTimer = none ∧
      entry.vars.countdownTimer = none ∧
      entry.vars.expiresAtMs = .null ∧
      (∀ t ∈ entry.live, some t.id ≠ s.pollTimer ∧ some t.id ≠ s.countdownTimer) := by
  refine ⟨⟨.stop s.sessionId,
    { sessionId := s.sessionId, pollTimer := none, countdownTimer := none,
      expiresAtMs := .null, isStopping := true },
    (stopTimers { s with isStopping := true }).timers⟩, ?_, ?_, rfl, rfl, rfl, rfl, ?_⟩
  · cases hp : s.pollTimer <;> cases hc : s.countdownTimer <;>
      simp [stopCurrentSession, hs, hn, stopTimers, fetch, clearInterval, hp, hc]
  · cases hp : s.pollTimer <;> cases hc : s.countdownTimer <;>
      simp [stopCurrentSession, hs, hn, stopTimers, fetch, clearInterval, hp, hc]
  · intro t ht
    cases hp : s.pollTimer <;> cases hc : s.countdownTimer <;>
      simp [stopTimers, clearInterval, hp, hc] at ht ⊢ <;> simp_all

theorem stop_cancels_timers_before_request_witness :
    ∃ entry : Sent,
      (stopCurrentSession activeSample).1.sent = [entry] ∧
      entry.vars.pollTimer = none ∧ entry.live = [] := by
  obtain ⟨entry, h1, -, -, h4, -, -, -⟩ :=
    stop_cancels_timers_before_request activeSample rfl rfl
  refine ⟨entry, by simpa [activeSample] using h1, h4, ?_⟩
  simp [activeSample, stopCurrentSession, JSVal.truthy, stopTimers, fetch,
    clearInterval] at h1
  subst h1
  rfl

/-- The failed round trips are exactly: a rejected `fetch`, a rejected
`response.json()`, a `null` body, a non-2xx status, a falsy `success`. -/
theorem succeeded_eq_none_iff (r : FetchResult) :
    succeeded r = none ↔
      (∃ m, r = .rejects m) ∨ (∃ ok m, r = .response ok (.rejects m)) ∨
      (∃ ok m, r = .response ok (.null m)) ∨ (∃ d, r = .response false (.value d)) ∨
      (∃ d, r = .response true (.value d) ∧ d.success.truthy = false) := by
  rcases r with m | ⟨ok, m | m | d⟩
  · simp [succeeded]
  · cases ok <;> simp [succeeded]
  · cases ok <;> simp [succeeded]
  · cases ok <;> simp [succeeded]

theorem stopCurrentSession_resume_of_failed (s : State) (k : JSVal) (r : FetchResult)
    (hfail : succeeded r = none) :
    ∃ msg, stopCurrentSession_resume s k r =
      ({ setStatus s msg true with sessionId := k, isStopping := false }, false) := by
  rcases r with m | ⟨ok, m | m | d⟩
  · exact ⟨_, rfl⟩
  · exact ⟨_, rfl⟩
  · exact ⟨_, rfl⟩
  · cases ok
    · exact ⟨(d.error.or (.str "Failed to stop session.")).toStr, by
        simp [stopCurrentSession_resume]⟩
    · have hd : d.success.truthy = false := by
        by_contra h
        simp [succeeded, h] at hfail
      exact ⟨(d.error.or (.str "Failed to stop session.")).toStr, by
        simp [stopCurrentSession_resume, hd]⟩

theorem refreshQr_resume_of_failed (env : Env) (s : State) (r : FetchResult) (draw : Draw)
    (hfail : succeeded r = none) :
    ∃ msg, refreshQr_resume env s r draw = setStatus s msg true := by
  rcases r with m | ⟨ok, m | m | d⟩
  · exact ⟨_, rfl⟩
  · exact ⟨_, rfl⟩
  · exact ⟨_, rfl⟩
  · cases ok
    · exact ⟨(d.error.or (.str "Failed to refresh QR.")).toStr, by
        simp [refreshQr_resume]⟩
    · have hd : d.success.truthy = false := by
        by_contra h
        simp [succeeded, h] at hfail
      exact ⟨(d.error.or (.str "Failed to refresh QR.")).toStr, by
        simp [refreshQr_resume, hd]⟩

/-- C5: `refreshQr` up to its `await` changes nothing but the history of requests, and
when the round trip fails (transport or JSON error, `null` body, non-2xx status,
falsy `success`) the part that runs on the response only calls `setStatus` with an
error message: `sessionId`, `pollTimer`, `countdownTimer`, `expiresAtMs`,
`isStopping`, the live intervals (so the poll keeps firing), the displayed token,
expiry and canvases are those the response found. -/
theorem refresh_failure_changes_status_only (env : Env) (s : State) (r : FetchResult)
    (draw : Draw) (hfail : succeeded r = none) :
    (∀ s0 : State, { (refreshQr s0).1 with sent := s0.sent } = s0) ∧
    ∃ msg : String,
      refreshQr_resume env s r draw =
        { s with qr := { s.qr with status := .span "text-danger" msg },
                 qrInline := { s.qrInline with status := .span "text-danger" msg } } ∧
      (refreshQr_resume env s r draw).toVars = s.toVars ∧
      (refreshQr_resume env s r draw).timers = s.timers ∧
      (refreshQr_resume env s r draw).qr.tokenText = s.qr.tokenText ∧
      (refreshQr_resume env s r draw).qrInline.tokenText = s.qrInline.tokenText ∧
      (refreshQr_resume env s r draw).qr.expiry = s.qr.expiry ∧
      (refreshQr_resume env s r draw).qr.canvas = s.qr.canvas := by
  constructor
  · intro s0
    unfold refreshQr
    split <;> rfl
  · obtain ⟨msg, h⟩ := refreshQr_resume_of_failed env s r draw hfail
    refine ⟨msg, ?_⟩
    rw [h]
    simp [setStatus]

theorem refresh_failure_changes_status_only_witness :
    ∃ msg : String,
      refreshQr_resume ⟨true, true, fun _ => none⟩ activeSample
          (.rejects "Failed to fetch") {} =
        { activeSample with
            qr := { activeSample.qr with status := .span "text-danger" msg },
            qrInline := { activeSample.qrInline with status := .span "text-danger" msg } } ∧
      (refreshQr_resume ⟨true, true, fun _ => none⟩ activeSample
          (.rejects "Failed to fetch") {}).toVars = activeSample.toVars := by
  obtain ⟨-, msg, h1, h2, -⟩ := refresh_failure_changes_status_only
    ⟨true, true, fun _ => none⟩ activeSample (.rejects "Failed to fetch") {} rfl
  exact ⟨msg, h1, h2⟩

end SAMS.Teacher

namespace SAMS.Teacher

@[simp] theorem setStatus_toVars (s : State) (m : String) (b : Bool) :
    (setStatus s m b).toVars = s.toVars := rfl
@[simp] theorem setStatus_sent (s : State) (m : String) (b : Bool) :
    (setStatus s m b).sent = s.sent := rfl
@[simp] theorem setStatus_timers (s : State) (m : String) (b : Bool) :
    (setStatus s m b).timers = s.timers := rfl

@[simp] theorem renderQr_toVars (env : Env) (s : State) (t : JSVal) (d : Draw) :
    (renderQr env s t d).toVars = s.toVars := by
  unfold renderQr
  cases env.hasQrLib <;> cases d.mainErr <;> cases d.inlineErr <;> rfl
@[simp] theorem renderQr_sent (env : Env) (s : State) (t : JSVal) (d : Draw) :
    (renderQr env s t d).sent = s.sent := by
  unfold renderQr
  cases env.hasQrLib <;> cases d.mainErr <;> cases d.inlineErr <;> rfl

@[simp] theorem clearInterval_sent (s : State) (h : Option Nat) :
    (clearInterval s h).sent = s.sent := by
  cases h <;> rfl
@[simp] theorem clearInterval_toVars (s : State) (h : Option Nat) :
    (clearInterval s h).toVars = s.toVars := by
  cases h <;> rfl

@[simp] theorem startCountdown_sent (s : State) : (startCountdown s).sent = s.sent := by
  simp [startCountdown, setInterval]
@[simp] theorem startCountdown_isStopping (s : State) :
    (startCountdown s).isStopping = s.isStopping := by
  cases h : s.countdownTimer <;> simp [startCountdown, setInterval, clearInterval, h]
@[simp] theorem startCountdown_sessionId (s : State) :
    (startCountdown s).sessionId = s.sessionId := by
  cases h : s.countdownTimer <;> simp [startCountdown, setInterval, clearInterval, h]

@[simp] theorem stopTimers_sent (s : State) : (stopTimers s).sent = s.sent := by
  simp [stopTimers]
@[simp] theorem stopTimers_isStopping (s : State) :
    (stopTimers s).isStopping = s.isStopping := by
  cases h : s.pollTimer <;> cases h2 : s.countdownTimer <;>
    simp [stopTimers, clearInterval, h, h2]
@[simp] theorem stopTimers_sessionId (s : State) :
    (stopTimers s).sessionId = s.sessionId := by
  cases h : s.pollTimer <;> cases h2 : s.countdownTimer <;>
    simp [stopTimers, clearInterval, h, h2]

@[simp] theorem countdownTick_toVars (s : State) (now : Int) :
    (countdownTick s now).toVars = s.toVars := by
  unfold countdownTick
  split
  · split <;> rfl
  · rfl
@[simp] theorem countdownTick_sent (s : State) (now : Int) :
    (countdownTick s now).sent = s.sent := by
  unfold countdownTick
  split
  · split <;> rfl
  · rfl

@[simp] theorem setDisabled_toVars (s : State) (c : Control) (b : Bool) :
    (setDisabled s c b).toVars = s.toVars := by
  cases b <;> rfl
@[simp] theorem setDisabled_sent (s : State) (c : Control) (b : Bool) :
    (setDisabled s c b).sent = s.sent := by
  cases b <;> rfl

@[simp] theorem stopBtn_after_toVars (s : State) (b : Bool) :
    (stopBtn_after s b).toVars = s.toVars := by
  cases b <;> simp [stopBtn_after, closeQrModalUi]
@[simp] theorem stopBtn_after_sent (s : State) (b : Bool) :
    (stopBtn_after s b).sent = s.sent := by
  cases b <;> simp [stopBtn_after, closeQrModalUi]

theorem stopRequests_append (l m : List Sent) :
    stopRequests (l ++ m) = stopRequests l + stopRequests m := by
  simp [stopRequests, List.countP_append]

theorem refreshQr_resume_isStopping (env : Env) (s : State) (r : FetchResult) (d : Draw) :
    (refreshQr_resume env s r d).isStopping = s.isStopping := by
  rcases r with m | ⟨ok, m | m | b⟩ <;> try rfl
  unfold refreshQr_resume
  simp only
  split
  · rfl
  · have := congrArg Vars.isStopping (renderQr_toVars env s b.token d)
    simp at this
    simp [this]

theorem refreshQr_resume_sent (env : Env) (s : State) (r : FetchResult) (d : Draw) :
    (refreshQr_resume env s r d).sent = s.sent := by
  rcases r with m | ⟨ok, m | m | b⟩ <;> try rfl
  unfold refreshQr_resume
  simp only
  split
  · rfl
  · simp

theorem takeAttendance_resume_isStopping (env : Env) (s : State) (btn : Nat)
    (r : FetchResult) (d : Draw) :
    (takeAttendance_resume env s btn r d).isStopping = s.isStopping := by
  have hv := congrArg Vars.isStopping
    (setDisabled_toVars
      (match r with
        | .response ok (.value data) =>
          if !ok || !data.success.truthy then
            alert s (data.error.or (.str "Could not start attendance.")).toStr
          else
            let s := stopTimers s
            let s := { s with sessionId := data.session_id }
            let s := renderQr env s data.token d
            let s := { s with expiresAtMs := .ofTime (env.dateMs data.expires_at) }
            let s := startCountdown s
            let s := setStatus s "Session started." false
            let s := { s with inlinePanelShown := true }
            let s := if env.hasModal then { s with modalShown := true } else s
            let (s, h) := setInterval s .poll
            { s with pollTimer := some h }
        | _ => alert s "Network error while starting attendance.") (.takeBtn btn) false)
  unfold takeAttendance_resume
  rw [hv]
  rcases r with m | ⟨ok, m | m | b⟩ <;> try rfl
  simp only
  split
  · rfl
  · have h1 := congrArg Vars.isStopping
      (renderQr_toVars env { stopTimers s with sessionId := b.session_id } b.token d)
    simp at h1
    cases env.hasModal <;> simp [setInterval, h1]

theorem takeAttendance_resume_sent (env : Env) (s : State) (btn : Nat)
    (r : FetchResult) (d : Draw) :
    (takeAttendance_resume env s btn r d).sent = s.sent := by
  unfold takeAttendance_resume
  rw [setDisabled_sent]
  rcases r with m | ⟨ok, m | m | b⟩ <;> try rfl
  simp only
  split
  · rfl
  · cases env.hasModal <;> simp [setInterval]

theorem stopCurrentSession_of_stopping (s : State) (h : s.isStopping = true) :
    ∃ b, stopCurrentSession s = (s, .returned b) := by
  unfold stopCurrentSession
  cases s.sessionId.truthy
  · exact ⟨true, by simp⟩
  · exact ⟨false, by simp [h]⟩

theorem stopCurrentSession_resume_sent (s : State) (k : JSVal) (r : FetchResult) :
    (stopCurrentSession_resume s k r).1.sent = s.sent := by
  rcases r with m | ⟨ok, m | m | b⟩ <;> try rfl
  unfold stopCurrentSession_resume
  simp only
  split <;> rfl

/-- While a stop is in flight, no event other than its response resets
`isStopping` or sends a stop request. -/
theorem step_keeps_stopping (env : Env) (e : Event) (σ σ' : Sys)
    (h : step env e σ = some σ') (he : e.isStopResp = false)
    (hst : σ.ctl.isStopping = true) :
    σ'.ctl.isStopping = true ∧ stopRequests σ'.ctl.sent = stopRequests σ.ctl.sent := by
  cases e with
  | clickTake btn =>
    simp only [step] at h
    split at h
    · cases h
    · cases h
      simp [takeAttendanceClick, fetch, stopRequests_append, stopRequests, hst]
  | startResp i r draw =>
    simp only [step] at h
    split at h
    · cases h
      simp [takeAttendance_resume_isStopping, takeAttendance_resume_sent, hst]
    · cases h
  | pollFire t =>
    simp only [step] at h
    split at h
    · cases hc : σ.ctl.sessionId.truthy
      · simp [refreshQr, hc] at h
        subst h
        exact ⟨hst, rfl⟩
      · simp [refreshQr, hc] at h
        subst h
        simp [fetch, stopRequests_append, stopRequests, hst]
    · cases h
  | refreshResp i r draw =>
    simp only [step] at h
    split at h
    · cases h
      simp [refreshQr_resume_isStopping, refreshQr_resume_sent, hst]
    · cases h
  | countdownFire t now =>
    simp only [step] at h
    split at h
    · cases h
      simp [hst]
    · cases h
  | stopCall caller =>
    simp only [step, stopCall] at h
    cases caller with
    | button =>
      simp only at h
      split at h
      · cases h
      · obtain ⟨b, hb⟩ := stopCurrentSession_of_stopping (setDisabled σ.ctl .stopBtn true)
          (by simp [hst])
        rw [hb] at h
        cases h
        simp [hst]
    | inline =>
      obtain ⟨b, hb⟩ := stopCurrentSession_of_stopping σ.ctl hst
      simp only [hb] at h
      cases h
      exact ⟨hst, rfl⟩
    | hidden =>
      obtain ⟨b, hb⟩ := stopCurrentSession_of_stopping σ.ctl hst
      simp only [hb] at h
      split at h
      · cases h
        exact ⟨hst, rfl⟩
      · cases h
        exact ⟨hst, rfl⟩
  | stopResp i r => simp [Event.isStopResp] at he

theorem run_keeps_stopping (env : Env) (es : List Event) (σ σ' : Sys)
    (h : run env es σ = some σ') (he : ∀ e ∈ es, e.isStopResp = false)
    (hst : σ.ctl.isStopping = true) :
    σ'.ctl.isStopping = true ∧ stopRequests σ'.ctl.sent = stopRequests σ.ctl.sent := by
  induction es generalizing σ with
  | nil =>
    simp [run] at h
    subst h
    exact ⟨hst, rfl⟩
  | cons e es ih =>
    simp only [run] at h
    cases hs : step env e σ with
    | none => simp [hs] at h
    | some σ1 =>
      simp [hs] at h
      obtain ⟨h1, h2⟩ := step_keeps_stopping env e σ σ1 hs (he e (by simp)) hst
      obtain ⟨h3, h4⟩ := ih σ1 h (fun x hx => he x (by simp [hx])) h1
      exact ⟨h3, by rw [h4, h2]⟩

theorem countP_eraseIdx_add {α : Type} (p : α → Bool) (l : List α) (i : Nat) (a : α)
    (h : l.get? i = some a) :
    (l.eraseIdx i).countP p + (if p a then 1 else 0) = l.countP p := by
  induction l generalizing i with
  | nil => simp at h
  | cons x xs ih =>
    cases i with
    | zero =>
      obtain rfl : x = a := by simpa using h
      simp [List.countP_cons]
    | succ j =>
      have := ih j (by simpa using h)
      simp only [List.eraseIdx_cons_succ, List.countP_cons]
      omega

theorem countP_isStop_append_stop (l : List Task) (k : JSVal) (c : StopCaller) :
    (l ++ [Task.stop k c]).countP Task.isStop = l.countP Task.isStop + 1 := by
  rw [List.countP_append]
  rfl

theorem countP_isStop_append_start (l : List Task) (btn : Nat) :
    (l ++ [Task.start btn]).countP Task.isStop = l.countP Task.isStop := by
  rw [List.countP_append]
  rfl

theorem countP_isStop_append_refresh (l : List Task) :
    (l ++ [Task.refresh]).countP Task.isStop = l.countP Task.isStop := by
  rw [List.countP_append]
  rfl

theorem stopCurrentSession_of_free (s : State) (hs : s.sessionId.truthy = true)
    (hn : s.isStopping = false) :
    stopCurrentSession s =
      (fetch (stopTimers { s with isStopping := true }) (.stop s.sessionId),
        .suspended s.sessionId) := by
  cases hp : s.pollTimer <;> cases hc : s.countdownTimer <;>
    simp [stopCurrentSession, hs, hn, stopTimers, fetch, clearInterval, hp, hc]

theorem stopCurrentSession_of_falsy (s : State) (hs : s.sessionId.truthy = false) :
    stopCurrentSession s = (s, .returned true) := by
  simp [stopCurrentSession, hs]

theorem stopCurrentSession_resume_isStopping (s : State) (k : JSVal) (r : FetchResult) :
    (stopCurrentSession_resume s k r).1.isStopping = false := by
  rcases r with m | ⟨ok, m | m | b⟩ <;> rfl

theorem stopCurrentSession_guard (s : State) :
    (∃ b, stopCurrentSession s = (s, .returned b)) ∨
    (s.isStopping = false ∧ ∃ s1 k, stopCurrentSession s = (s1, .suspended k) ∧
      s1.isStopping = true) := by
  cases hs : s.sessionId.truthy
  · exact Or.inl ⟨true, stopCurrentSession_of_falsy s hs⟩
  · cases hn : s.isStopping
    · refine Or.inr ⟨rfl, _, _, stopCurrentSession_of_free s hs hn, ?_⟩
      simp [fetch]
    · exact Or.inl (stopCurrentSession_of_stopping s hn)

theorem step_guardInv (env : Env) (e : Event) (σ σ' : Sys)
    (h : step env e σ = some σ') (hi : GuardInv σ) : GuardInv σ' := by
  unfold GuardInv stopsInFlight at *
  cases e with
  | clickTake btn =>
    simp only [step] at h
    split at h
    · cases h
    · cases h
      rw [countP_isStop_append_start, hi]
      simp [takeAttendanceClick, fetch]
  | startResp i r draw =>
    simp only [step] at h
    split at h
    · rename_i btn hg
      cases h
      have := countP_eraseIdx_add Task.isStop σ.tasks i _ hg
      simp only [Task.isStop, Bool.false_eq_true, if_false, Nat.add_zero] at this
      rw [this, hi, takeAttendance_resume_isStopping]
    · cases h
  | pollFire t =>
    simp only [step] at h
    split at h
    · cases hc : σ.ctl.sessionId.truthy
      · simp [refreshQr, hc] at h
        subst h
        exact hi
      · simp [refreshQr, hc] at h
        subst h
        rw [countP_isStop_append_refresh, hi]
        simp [fetch]
    · cases h
  | refreshResp i r draw =>
    simp only [step] at h
    split at h
    · rename_i hg
      cases h
      have := countP_eraseIdx_add Task.isStop σ.tasks i _ hg
      simp only [Task.isStop, Bool.false_eq_true, if_false, Nat.add_zero] at this
      rw [this, hi, refreshQr_resume_isStopping]
    · cases h
  | countdownFire t now =>
    simp only [step] at h
    split at h
    · cases h
      rw [hi]
      simp
    · cases h
  | stopCall caller =>
    simp only [step, stopCall] at h
    cases caller with
    | button =>
      simp only at h
      split at h
      · cases h
      · rcases stopCurrentSession_guard (setDisabled σ.ctl .stopBtn true) with
          ⟨b, hb⟩ | ⟨hn, s1, k, hk, h1⟩
        · rw [hb] at h
          cases h
          rw [hi]
          simp
        · rw [hk] at h
          cases h
          have hn2 : σ.ctl.isStopping = false := by simpa using hn
          rw [countP_isStop_append_stop, hi, hn2, h1]
          rfl
    | inline =>
      rcases stopCurrentSession_guard σ.ctl with ⟨b, hb⟩ | ⟨hn, s1, k, hk, h1⟩
      · simp only [hb] at h
        cases h
        exact hi
      · simp only [hk] at h
        cases h
        rw [countP_isStop_append_stop, hi, hn, h1]
        rfl
    | hidden =>
      simp only at h
      split at h
      · rcases stopCurrentSession_guard σ.ctl with ⟨b, hb⟩ | ⟨hn, s1, k, hk, h1⟩
        · simp only [hb] at h
          cases h
          exact hi
        · simp only [hk] at h
          cases h
          rw [countP_isStop_append_stop, hi, hn, h1]
          rfl
      · cases h
        exact hi
  | stopResp i r =>
    simp only [step] at h
    split at h
    · rename_i k caller hg
      have hc := countP_eraseIdx_add Task.isStop σ.tasks i _ hg
      simp only [Task.isStop, if_true] at hc
      have hr := stopCurrentSession_resume_isStopping σ.ctl k r
      have key : ∀ s : State, s.isStopping = false →
          List.countP Task.isStop (σ.tasks.eraseIdx i) = s.isStopping.toNat := by
        intro s hs
        rw [hs]
        cases hst : σ.ctl.isStopping
        · rw [hst] at hi
          simp only [Bool.toNat_false] at hi
          omega
        · rw [hst] at hi
          simp only [Bool.toNat_true, Bool.toNat_false] at hi ⊢
          omega
      cases caller <;> cases h
      · exact key _ (by simp [hr])
      · exact key _ hr
      · exact key _ hr
    · cases h

theorem run_guardInv (env : Env) (es : List Event) (σ σ' : Sys)
    (h : run env es σ = some σ') (hi : GuardInv σ) : GuardInv σ' := by
  induction es generalizing σ with
  | nil =>
    simp [run] at h
    subst h
    exact hi
  | cons e es ih =>
    simp only [run] at h
    cases hs : step env e σ with
    | none => simp [hs] at h
    | some σ1 =>
      simp [hs] at h
      exact ih σ1 h (step_guardInv env e σ σ1 hs hi)

theorem guardInv_init : GuardInv init := rfl

theorem stopCall_of_free (env : Env) (σ0 σ1 : Sys) (caller : StopCaller)
    (hs : σ0.ctl.sessionId.truthy = true) (hn : σ0.ctl.isStopping = false)
    (h : step env (.stopCall caller) σ0 = some σ1) :
    σ1.tasks = σ0.tasks ++ [.stop σ0.ctl.sessionId caller] ∧
    σ1.ctl.isStopping = true ∧
    stopRequests σ1.ctl.sent = stopRequests σ0.ctl.sent + 1 := by
  simp only [step, stopCall] at h
  cases caller with
  | button =>
    simp only at h
    split at h
    · cases h
    · rw [stopCurrentSession_of_free _ (by simpa using hs) (by simpa using hn)] at h
      cases h
      simp [fetch, stopRequests_append, stopRequests]
  | inline =>
    simp only [stopCurrentSession_of_free _ hs hn] at h
    cases h
    simp [fetch, stopRequests_append, stopRequests]
  | hidden =>
    simp only [hs, if_true, stopCurrentSession_of_free _ hs hn] at h
    cases h
    simp [fetch, stopRequests_append, stopRequests]

theorem stopCall_of_stopping (env : Env) (σ σ' : Sys) (caller : StopCaller)
    (hs : σ.ctl.sessionId.truthy = true) (hst : σ.ctl.isStopping = true)
    (h : step env (.stopCall caller) σ = some σ') :
    σ'.tasks = σ.tasks ∧ σ'.ctl.sent = σ.ctl.sent ∧ σ'.ctl.toVars = σ.ctl.toVars ∧
    σ'.ctl.timers = σ.ctl.timers ∧ σ'.ctl.qr = σ.ctl.qr ∧
    σ'.ctl.qrInline = σ.ctl.qrInline := by
  have hret : ∀ s : State, s.sessionId.truthy = true → s.isStopping = true →
      stopCurrentSession s = (s, .returned false) := by
    intro s h1 h2
    simp [stopCurrentSession, h1, h2]
  simp only [step, stopCall] at h
  cases caller with
  | button =>
    simp only at h
    split at h
    · cases h
    · rw [hret _ (by simpa using hs) (by simpa using hst)] at h
      cases h
      simp [stopBtn_after, setDisabled]
  | inline =>
    simp only [hret _ hs hst] at h
    cases h
    simp
  | hidden =>
    simp only [hs, if_true, hret _ hs hst] at h
    cases h
    simp

/-- C1: take any page reached from `setup()` that holds a session (`sessionId`
passes the test `if (!sessionId)`) and has no stop in flight; no `stopCurrentSession`
is suspended in it.  Let one of the three callers invoke `stopCurrentSession` (the
first invocation: it suspends at its `await`, having sent one stop request), let
any events follow except the response to that request, and let a session be held
in the state reached.  There a second invocation returns `false` and changes
nothing: whichever caller makes it, no request is sent, no function is suspended,
and variables, intervals and displays are as before.  Exactly one stop request has
been sent since the first invocation began, exactly one `stopCurrentSession` is
suspended, and its completion sends no request, whatever the response. -/
theorem second_stop_is_noop (env : Env) (pre mid : List Event) (σ0 σ1 σ2 : Sys)
    (caller : StopCaller)
    (h0 : run env pre init = some σ0)
    (hs0 : σ0.ctl.sessionId.truthy = true) (hn0 : σ0.ctl.isStopping = false)
    (h1 : step env (.stopCall caller) σ0 = some σ1)
    (hmid : ∀ e ∈ mid, e.isStopResp = false)
    (h2 : run env mid σ1 = some σ2)
    (hs2 : σ2.ctl.sessionId.truthy = true) :
    stopsInFlight σ0 = 0 ∧
    σ1.tasks = σ0.tasks ++ [.stop σ0.ctl.sessionId caller] ∧
    stopCurrentSession σ2.ctl = (σ2.ctl, .returned false) ∧
    (∀ c σ3, step env (.stopCall c) σ2 = some σ3 →
      σ3.tasks = σ2.tasks ∧ σ3.ctl.sent = σ2.ctl.sent ∧ σ3.ctl.toVars = σ2.ctl.toVars ∧
      σ3.ctl.timers = σ2.ctl.timers ∧ σ3.ctl.qr = σ2.ctl.qr ∧
      σ3.ctl.qrInline = σ2.ctl.qrInline) ∧
    stopRequests σ2.ctl.sent = stopRequests σ0.ctl.sent + 1 ∧
    stopsInFlight σ2 = 1 ∧
    (∀ s k r, (stopCurrentSession_resume s k r).1.sent = s.sent) := by
  have g0 : GuardInv σ0 := run_guardInv env pre init σ0 h0 guardInv_init
  have g1 : GuardInv σ1 := step_guardInv env _ σ0 σ1 h1 g0
  have g2 : GuardInv σ2 := run_guardInv env mid σ1 σ2 h2 g1
  obtain ⟨t1, st1, r1⟩ := stopCall_of_free env σ0 σ1 caller hs0 hn0 h1
  obtain ⟨st2, r2⟩ := run_keeps_stopping env mid σ1 σ2 h2 hmid st1
  refine ⟨?_, t1, ?_, ?_, ?_, ?_, stopCurrentSession_resume_sent⟩
  · rw [g0, hn0]
    rfl
  · simp [stopCurrentSession, hs2, st2]
  · intro c σ3 h3
    exact stopCall_of_stopping env σ2 σ3 c hs2 st2 h3
  · rw [r2, r1]
  · rw [g2, st2]
    rfl

end SAMS.Teacher

namespace SAMS.Teacher

theorem second_stop_is_noop_witness :
    stopCurrentSession stoppingLaterSample.ctl = (stoppingLaterSample.ctl, .returned false) ∧
    stopRequests stoppingLaterSample.ctl.sent = stopRequests startedSample.ctl.sent + 1 ∧
    stopsInFlight stoppingLaterSample = 1 := by
  have h := second_stop_is_noop sampleEnv [.clickTake 7, .startResp 0 okStart {}]
    [.clickTake 8, .stopCall .hidden] startedSample stoppingSample stoppingLaterSample
    .button (by rfl) (by rfl) (by rfl) (by rfl) (by decide) (by rfl) (by rfl)
  exact ⟨h.2.2.1, h.2.2.2.2.1, h.2.2.2.2.2.1⟩

end SAMS.Teacher

namespace SAMS.Teacher

/-- C2, the code at the failing trace.  A session is started, the poll interval
fires (a refresh request is in flight), the inline stop button is pressed and the
stop succeeds: the session has ended, no interval is live, the display is cleared.
Then the refresh response arrives: the token line shows `"def"` again, `expiresAtMs`
is set, a countdown interval is live, and its next tick writes the expiry line,
all with `sessionId` still `null`.  When the refresh response arrives before the
stop response instead, the successful stop leaves the restarted countdown interval
live and `expiresAtMs` set. -/
theorem refresh_in_flight_outlives_stop :
    ∃ σ1 σ2 σ3 σ4 : Sys,
      run sampleEnv [.clickTake 7, .startResp 0 okStart {}, .pollFire 2,
        .stopCall .inline, .stopResp 1 okStop] init = some σ1 ∧
      σ1.ctl.sessionId = .null ∧ σ1.ctl.timers = [] ∧ σ1.ctl.expiresAtMs = .null ∧
      σ1.ctl.qr.tokenText = .str "" ∧ σ1.ctl.qr.expiry = .empty ∧
      step sampleEnv (.refreshResp 0 okRefresh {}) σ1 = some σ2 ∧
      σ2.ctl.sessionId = .null ∧ σ2.ctl.qr.tokenText = .str "def" ∧
      σ2.ctl.qr.canvas = some (.str "def") ∧
      σ2.ctl.expiresAtMs = .num 33000 ∧ σ2.ctl.countdownTimer = some 3 ∧
      σ2.ctl.timers = [⟨3, .countdown⟩] ∧
      step sampleEnv (.countdownFire 3 4000) σ2 = some σ3 ∧
      σ3.ctl.qr.expiry = .expiresIn 29 ∧
      run sampleEnv [.clickTake 7, .startResp 0 okStart {}, .pollFire 2,
        .stopCall .inline, .refreshResp 0 okRefresh {}, .stopResp 0 okStop] init
        = some σ4 ∧
      σ4.ctl.sessionId = .null ∧ σ4.ctl.expiresAtMs = .num 33000 ∧
      σ4.ctl.countdownTimer = some 3 ∧ σ4.ctl.timers = [⟨3, .countdown⟩] :=
  ⟨_, _, _, _, rfl, rfl, rfl, rfl, rfl, rfl, rfl, rfl, rfl, rfl, rfl, rfl, rfl, rfl, rfl,
    rfl, rfl, rfl, rfl, rfl⟩

end SAMS.Teacher

/-! ## Student dashboard: theorems -/

namespace SAMS.Student

theorem dropWhile_reverse_dropWhile_eq_nil_iff {α : Type} (p : α → Bool) (l : List α) :
    ((l.dropWhile p).reverse.dropWhile p) = [] ↔ ∀ x ∈ l, p x = true := by
  constructor
  · intro h
    have h1 : ∀ x ∈ l.dropWhile p, p x = true := by
      intro x hx
      have := List.dropWhile_eq_nil_iff.mp h x (List.mem_reverse.mpr hx)
      exact this
    have h2 : l.dropWhile p = [] := by
      cases hd : l.dropWhile p with
      | nil => rfl
      | cons a t =>
        have hne : l.dropWhile p ≠ [] := by simp [hd]
        have hhead := List.head_dropWhile_not p l hne
        have := h1 ((l.dropWhile p).head hne) (List.head_mem hne)
        simp [this] at hhead
    exact List.dropWhile_eq_nil_iff.mp h2
  · intro h
    have h2 : l.dropWhile p = [] := List.dropWhile_eq_nil_iff.mpr h
    simp [h2]

/-- A string trims to the empty string exactly when all its characters are white
space. -/
theorem jsTrim_eq_empty_iff (t : String) :
    jsTrim t = "" ↔ ∀ c ∈ t.data, isJsSpace c = true := by
  unfold jsTrim
  rw [← dropWhile_reverse_dropWhile_eq_nil_iff]
  constructor
  · intro h
    have := congrArg String.data h
    simpa using this
  · intro h
    rw [h]
    rfl

/-- C7: when the token text is missing (`null` or `undefined`) or trims to the empty
string, `submitScannedToken` returns at once: the scan status is the error
`Token cannot be empty.`, nothing else changes, so no request is sent and
`pendingAttendanceId` is as before.  For any other text the request carries the
trimmed token. -/
theorem empty_token_rejected_locally (s : State) (tokenText : Option String)
    (h : tokenText = none ∨ ∃ t, tokenText = some t ∧ jsTrim t = "") :
    submitScannedToken s tokenText =
      ({ s with scanStatus := .span "text-danger" "Token cannot be empty." }, .returned) ∧
    (submitScannedToken s tokenText).1.sent = s.sent ∧
    (submitScannedToken s tokenText).1.pendingAttendanceId = s.pendingAttendanceId ∧
    (∀ t, jsTrim t ≠ "" →
      (submitScannedToken s (some t)).1.sent =
        s.sent ++ [.scan (jsTrim t) s.selectedClassroomId]) := by
  have he : jsTrim (tokenText.getD "") = "" := by
    rcases h with h | ⟨t, h, ht⟩
    · subst h
      rfl
    · subst h
      exact ht
  have h1 : submitScannedToken s tokenText =
      ({ s with scanStatus := .span "text-danger" "Token cannot be empty." }, .returned) := by
    simp [submitScannedToken, he]
  refine ⟨h1, by rw [h1], by rw [h1], ?_⟩
  intro t ht
  simp [submitScannedToken, ht, fetch]

theorem empty_token_rejected_locally_witness :
    (submitScannedToken pendingSample (some "  ")).1.scanStatus
      = .span "text-danger" "Token cannot be empty." ∧
    (submitScannedToken pendingSample (some "  ")).1.sent = [] ∧
    (submitScannedToken pendingSample (some "  ")).2 = .returned := by
  have h := empty_token_rejected_locally pendingSample (some "  ")
    (Or.inr ⟨"  ", rfl, by decide⟩)
  exact ⟨by rw [h.1], h.2.1, by rw [h.1]⟩

/-- C8, counterexample: a validation response with a non-2xx status whose body is not
JSON carries no error string, yet the scan status is not `QR scan failed.`: it is
`Network error while validating QR.`. -/
theorem scan_failure_unparsed_body_counterexample :
    (submitScannedToken_resume pendingSample
        (.response false (.rejects "Unexpected token <"))).scanStatus
      ≠ .span "text-danger" "QR scan failed." ∧
    (submitScannedToken_resume pendingSample
        (.response false (.rejects "Unexpected token <"))).scanStatus
      = .span "text-danger" "Network error while validating QR." := by
  constructor
  · decide
  · rfl

/-- C8, amended: for a failed validation response whose body parsed to a JSON value
other than `null` (non-2xx status, or a falsy `success`), `pendingAttendanceId` is
unchanged and nothing is scheduled or sent, the scan status shows the server's
`error` verbatim, or `QR scan failed.` when the body has none, and an alert with the
membership message is raised exactly when `error` is that message.  For a response
whose body did not parse or is `null`, `pendingAttendanceId` is unchanged, no alert
is raised and the scan status is `Network error while validating QR.`. -/
theorem scan_failure_shows_server_error (s : State) (ok : Bool) (data : Body)
    (hfail : ok = false ∨ data.success.truthy = false) :
    (submitScannedToken_resume s (.response ok (.value data))).pendingAttendanceId
      = s.pendingAttendanceId ∧
    (submitScannedToken_resume s (.response ok (.value data))).scanStatus
      = .span "text-danger"
          (if data.error.truthy then data.error.toStr else "QR scan failed.") ∧
    (submitScannedToken_resume s (.response ok (.value data))).alerts
      = (if data.error = .str "You don't belong to this class."
          then s.alerts ++ ["You don't belong to this class."] else s.alerts) ∧
    (submitScannedToken_resume s (.response ok (.value data))).timeouts = s.timeouts ∧
    (submitScannedToken_resume s (.response ok (.value data))).sent = s.sent ∧
    (∀ (b : Bool) (m : String),
      submitScannedToken_resume s (.response b (.rejects m)) =
        { s with scanStatus := .span "text-danger" "Network error while validating QR." } ∧
      submitScannedToken_resume s (.response b (.null m)) =
        { s with scanStatus := .span "text-danger" "Network error while validating QR." }) := by
  have hc : (!ok || !data.success.truthy) = true := by
    rcases hfail with h | h <;> simp [h]
  refine ⟨?_, ?_, ?_, ?_, ?_, fun b m => ⟨rfl, rfl⟩⟩
  · simp only [submitScannedToken_resume, hc, if_true]
    split <;> rfl
  · simp only [submitScannedToken_resume, hc, if_true, JSVal.or]
    cases data.error.truthy <;> simp [JSVal.toStr]
  · simp only [submitScannedToken_resume, hc, if_true, notInClass]
    split <;> rfl
  · simp only [submitScannedToken_resume, hc, if_true]
    split <;> rfl
  · simp only [submitScannedToken_resume, hc, if_true]
    split <;> rfl

theorem scan_failure_shows_server_error_witness :
    (submitScannedToken_resume {} notMember).alerts
      = ["You don't belong to this class."] ∧
    (submitScannedToken_resume {} notMember).scanStatus
      = .span "text-danger" "You don't belong to this class." ∧
    (submitScannedToken_resume {} notMember).pendingAttendanceId = .null := by
  have h := scan_failure_shows_server_error {} false
    { success := .bool false, error := .str "You don't belong to this class." }
    (Or.inl rfl)
  exact ⟨h.2.2.1, h.2.1, h.1⟩

end SAMS.Student

namespace SAMS.Student

theorem capture_resume_of_failed (s : State) (r : FetchResult)
    (hfail : captureSucceeded r = none) :
    ∃ msg, capture_resume s r = captureFailed s msg := by
  rcases r with m | ⟨ok, m | m | d⟩
  · exact ⟨_, rfl⟩
  · exact ⟨_, rfl⟩
  · exact ⟨_, rfl⟩
  · cases ok
    · exact ⟨(d.error.or (.str "Request failed")).toStr, by simp [capture_resume]⟩
    · have hd : (!d.success.truthy && d.match_ != .bool false) = true := by
        by_contra h
        simp only [captureSucceeded, h] at hfail
        simp at hfail
      exact ⟨(d.error.or (.str "Request failed")).toStr, by
        simp only [capture_resume, hd, Bool.or_true, if_true]⟩

theorem capture_resume_of_succeeded (s : State) (r : FetchResult) (data : Body)
    (hmode : s.cameraMode = .attendance) (hok : captureSucceeded r = some data) :
    capture_resume s r =
      setTimeout
        { s with
            cameraStatus :=
              if data.match_.truthy then
                .scoreSpan "text-success" "Attendance marked. Score: " data.score
              else .scoreSpan "text-danger" "Face verification failed. Score: " data.score }
        .hideCameraModal := by
  rcases r with m | ⟨ok, m | m | d⟩
  · simp [captureSucceeded] at hok
  · cases ok <;> simp [captureSucceeded] at hok
  · cases ok <;> simp [captureSucceeded] at hok
  · cases ok
    · simp [captureSucceeded] at hok
    · cases hd : (!d.success.truthy && d.match_ != .bool false)
      · simp only [captureSucceeded, hd] at hok
        simp at hok
        subst hok
        simp only [capture_resume, hd, Bool.not_true, Bool.or_false, hmode]
        cases d.match_.truthy <;> simp
      · simp only [captureSucceeded, hd] at hok
        simp at hok

theorem capture_resume_pendingAttendanceId (s : State) (r : FetchResult) :
    (capture_resume s r).pendingAttendanceId = s.pendingAttendanceId ∧
    (capture_resume s r).cameraMode = s.cameraMode := by
  rcases r with m | ⟨ok, m | m | d⟩
  · exact ⟨rfl, rfl⟩
  · exact ⟨rfl, rfl⟩
  · exact ⟨rfl, rfl⟩
  · unfold capture_resume
    simp only
    split
    · exact ⟨rfl, rfl⟩
    · cases hm : s.cameraMode
      · simp only
        split <;> exact ⟨rfl, hm.symm ▸ rfl⟩
      · simp only
        split <;> exact ⟨rfl, hm.symm ▸ rfl⟩

theorem captureClick_of_pending (s : State) (imageData : String)
    (hmode : s.cameraMode = .attendance) (hh : s.pendingAttendanceId.truthy = true) :
    captureClick s imageData =
      (fetch { s with captureBtnDisabled := true, cameraStatus := .processing }
        (.verify imageData s.pendingAttendanceId), .suspended) := by
  simp [captureClick, hmode, hh]

/-- C9, counterexample: a student in attendance mode holds the handle 42 and submits
a capture; the verification fails with a non-2xx status.  When the handler has
finished, `pendingAttendanceId` is still 42 and the capture control is enabled, and
a second capture attaches the same handle to a second verify request. -/
theorem failed_verification_keeps_handle :
    (capture_resume (captureClick pendingSample "img1").1 verifyRejected).pendingAttendanceId
      = .num 42 ∧
    (capture_resume (captureClick pendingSample "img1").1 verifyRejected).pendingAttendanceId
      ≠ .null ∧
    (capture_resume (captureClick pendingSample "img1").1 verifyRejected).captureBtnDisabled
      = false ∧
    (captureClick (capture_resume (captureClick pendingSample "img1").1 verifyRejected)
        "img2").1.sent
      = [.verify "img1" (.num 42), .verify "img2" (.num 42)] := by
  refine ⟨rfl, by decide, rfl, rfl⟩

/-- C9, amended: a successful token validation stores the returned `attendance_id` in
`pendingAttendanceId`.  A capture in attendance mode with a handle held attaches it
to one verify request and disables the capture control.  Whatever state the
response finds, the capture handler leaves `pendingAttendanceId` and `cameraMode` as
it finds them; a failed response enables the capture control; a successful one
(match or non-match) that finds the page in attendance mode leaves the control as it
is and schedules the closing of the camera modal.  So, when no other handler ran
during the round trip, after a successful submission the handle is still held with
the control disabled and the closing scheduled, and after a failed one the handle is
still held with the control enabled, and the next capture attaches the same handle
to another verify request.  It is the camera modal's dismissal handler that sets
`pendingAttendanceId` to `null`, also when the scheduled closing of a shown modal
runs it; a response that arrives after the dismissal leaves it `null`. -/
theorem pending_handle_cleared_by_dismissal_only (s : State) (imageData : String)
    (hmode : s.cameraMode = .attendance) (hh : s.pendingAttendanceId.truthy = true) :
    (∀ (s0 : State) (data : Body), data.success.truthy = true →
      (submitScannedToken_resume s0 (.response true (.value data))).pendingAttendanceId
        = data.attendance_id) ∧
    captureClick s imageData =
      (fetch { s with captureBtnDisabled := true, cameraStatus := .processing }
        (.verify imageData s.pendingAttendanceId), .suspended) ∧
    (∀ (s1 : State) (r : FetchResult),
      (capture_resume s1 r).pendingAttendanceId = s1.pendingAttendanceId ∧
      (capture_resume s1 r).cameraMode = s1.cameraMode) ∧
    (∀ (s1 : State) (r : FetchResult), captureSucceeded r = none →
      (capture_resume s1 r).captureBtnDisabled = false ∧
      (capture_resume s1 r).timeouts = s1.timeouts ∧
      (capture_resume s1 r).sent = s1.sent) ∧
    (∀ (s1 : State) (r : FetchResult) (data : Body), s1.cameraMode = .attendance →
      captureSucceeded r = some data →
      (capture_resume s1 r).captureBtnDisabled = s1.captureBtnDisabled ∧
      (capture_resume s1 r).timeouts = s1.timeouts ++ [.hideCameraModal] ∧
      (capture_resume s1 r).sent = s1.sent) ∧
    (∀ (r : FetchResult) (data : Body), captureSucceeded r = some data →
      (capture_resume (captureClick s imageData).1 r).pendingAttendanceId
        = s.pendingAttendanceId ∧
      (capture_resume (captureClick s imageData).1 r).captureBtnDisabled = true ∧
      (capture_resume (captureClick s imageData).1 r).timeouts
        = s.timeouts ++ [.hideCameraModal]) ∧
    (∀ r : FetchResult, captureSucceeded r = none →
      (capture_resume (captureClick s imageData).1 r).pendingAttendanceId
        = s.pendingAttendanceId ∧
      (capture_resume (captureClick s imageData).1 r).captureBtnDisabled = false ∧
      ∀ image2 : String,
        (captureClick (capture_resume (captureClick s imageData).1 r) image2).1.sent
          = s.sent ++ [.verify imageData s.pendingAttendanceId,
                       .verify image2 s.pendingAttendanceId]) ∧
    (∀ s3 : State, (cameraModalHidden s3).pendingAttendanceId = .null) ∧
    (∀ s3 : State, s3.cameraModalShown = true →
      (hideCameraModalTimeout ⟨true⟩ s3).pendingAttendanceId = .null) ∧
    (∀ (s3 : State) (r : FetchResult),
      (capture_resume (cameraModalHidden s3) r).pendingAttendanceId = .null) := by
  have hclick := captureClick_of_pending s imageData hmode hh
  have hhidden : ∀ s3 : State, (cameraModalHidden s3).pendingAttendanceId = .null := by
    intro s3
    cases h : s3.stream <;> simp [cameraModalHidden, h]
  refine ⟨?_, hclick, capture_resume_pendingAttendanceId, ?_, ?_, ?_, ?_, hhidden, ?_, ?_⟩
  · intro s0 data hd
    simp [submitScannedToken_resume, hd, setTimeout]
  · intro s1 r hfail
    obtain ⟨msg, hm⟩ := capture_resume_of_failed s1 r hfail
    rw [hm]
    exact ⟨rfl, rfl, rfl⟩
  · intro s1 r data hm hok
    rw [capture_resume_of_succeeded s1 r data hm hok]
    exact ⟨rfl, rfl, rfl⟩
  · intro r data hok
    rw [hclick]
    rw [capture_resume_of_succeeded _ r data (by simpa [fetch] using hmode) hok]
    simp [setTimeout, fetch]
  · intro r hfail
    rw [hclick]
    obtain ⟨msg, hm⟩ := capture_resume_of_failed
      (fetch { s with captureBtnDisabled := true, cameraStatus := .processing }
        (.verify imageData s.pendingAttendanceId)) r hfail
    rw [hm]
    refine ⟨rfl, rfl, ?_⟩
    intro image2
    simp [captureClick, captureFailed, fetch, hmode, hh]
  · intro s3 hshown
    cases h : s3.stream <;> simp [hideCameraModalTimeout, cameraModalHidden, h, hshown]
  · intro s3 r
    rw [(capture_resume_pendingAttendanceId _ r).1]
    exact hhidden s3

theorem pending_handle_cleared_by_dismissal_only_witness :
    (captureClick pendingSample "img1").1.sent = [.verify "img1" (.num 42)] ∧
    (capture_resume (captureClick pendingSample "img1").1 verifyRejected).pendingAttendanceId
      = .num 42 ∧
    (cameraModalHidden pendingSample).pendingAttendanceId = .null := by
  have h := pending_handle_cleared_by_dismissal_only pendingSample "img1" rfl rfl
  refine ⟨by rw [h.2.1]; rfl, (h.2.2.2.2.2.2.1 verifyRejected rfl).1, h.2.2.2.2.2.2.2.1 _⟩

/-- C10: in attendance mode with no pending handle (`pendingAttendanceId` falsy:
`null`, `undefined` or empty), the capture handler returns without sending a
request: the camera status is the error
`Missing attendance context. Scan QR again.`, the capture control is enabled, and
nothing else changes, in particular `cameraMode` and `pendingAttendanceId`. -/
theorem capture_without_handle_is_local_error (s : State) (imageData : String)
    (hmode : s.cameraMode = .attendance)
    (hh : s.pendingAttendanceId.truthy = false) :
    captureClick s imageData =
      ({ s with
          cameraStatus := .span "text-danger" "Missing attendance context. Scan QR again."
          captureBtnDisabled := false }, .returned) ∧
    (captureClick s imageData).1.sent = s.sent ∧
    (captureClick s imageData).1.cameraMode = s.cameraMode ∧
    (captureClick s imageData).1.pendingAttendanceId = s.pendingAttendanceId ∧
    (captureClick s imageData).1.captureBtnDisabled = false ∧
    JSVal.truthy .null = false ∧ JSVal.truthy (.str "") = false := by
  have h1 : captureClick s imageData =
      ({ s with
          cameraStatus := .span "text-danger" "Missing attendance context. Scan QR again."
          captureBtnDisabled := false }, .returned) := by
    simp [captureClick, hmode, hh]
  refine ⟨h1, by rw [h1], by rw [h1], by rw [h1], by rw [h1], rfl, rfl⟩

theorem capture_without_handle_is_local_error_witness :
    (captureClick { cameraMode := .attendance, pendingAttendanceId := .str "" } "img").1.sent
      = [] ∧
    (captureClick { cameraMode := .attendance, pendingAttendanceId := .str "" } "img").1
      = { cameraMode := .attendance, pendingAttendanceId := .str "",
          cameraStatus := .span "text-danger" "Missing attendance context. Scan QR again." } := by
  have h := capture_without_handle_is_local_error
    { cameraMode := .attendance, pendingAttendanceId := .str "" } "img" rfl rfl
  exact ⟨h.2.1, by rw [h.1]⟩

end SAMS.Student

namespace SAMS.Student

/-- C11: whatever the state before (either capture mode, a stream held or not, a
pending handle or not), the camera modal's `hidden.bs.modal` handler calls `stop` on
every track of the held stream and on nothing else, and leaves `stream` `null`, the
video source cleared, `cameraMode` `'register'`, `pendingAttendanceId` `null`, the
capture control enabled and the camera status empty. -/
theorem dismissal_releases_camera (s : State) :
    (cameraModalHidden s).stoppedTracks = s.stoppedTracks ++ s.stream.getD [] ∧
    (∀ t ∈ s.stream.getD [], t ∈ (cameraModalHidden s).stoppedTracks) ∧
    (cameraModalHidden s).stream = none ∧
    (cameraModalHidden s).videoSrc = none ∧
    (cameraModalHidden s).cameraMode = .register ∧
    (cameraModalHidden s).pendingAttendanceId = .null ∧
    (cameraModalHidden s).captureBtnDisabled = false ∧
    (cameraModalHidden s).cameraStatus = .empty := by
  cases h : s.stream with
  | none => simp [cameraModalHidden, h, setCameraMode]
  | some tracks =>
    simp [cameraModalHidden, h, setCameraMode]
    intro t ht
    exact Or.inr ht

/-- C14: with a scanner held and running, `stopScanner` calls `qrScanner.stop()`, and
however that call and the following `qrScanner.clear()` settle (fulfilled or
rejected), it goes on to call `clear`, returns without raising and leaves
`scannerRunning` `false`, so that the `stopScanner()` awaited by the next
`startScanner` returns at once and a new scanner is started.  In any other state
`stopScanner` returns at once with `scannerRunning` `false`, and whatever state the
settling of `clear` finds, the function returns with `scannerRunning` `false`. -/
theorem stopScanner_swallows_failures (s : State) (id : Nat) (o1 o2 : Settled)
    (hq : s.qrScanner = some id) (hr : s.scannerRunning = true) :
    stopScanner s = ({ s with scannerCalls := s.scannerCalls ++ [.stop id] }, .suspended) ∧
    (stopScanner_afterStop (stopScanner s).1 o1).scannerCalls
      = s.scannerCalls ++ [.stop id, .clear id] ∧
    (stopScanner_afterClear (stopScanner_afterStop (stopScanner s).1 o1) o2).2
      = .returned ∧
    (stopScanner_afterClear (stopScanner_afterStop (stopScanner s).1 o1) o2).1
      = { s with scannerCalls := s.scannerCalls ++ [.stop id, .clear id],
                 scannerRunning := false } ∧
    (stopScanner
      (stopScanner_afterClear (stopScanner_afterStop (stopScanner s).1 o1) o2).1).2
      = .returned ∧
    (∀ s0 : State,
      (startScanner_create s0).scannerRunning = true ∧
      (startScanner_create s0).qrScanner = some s0.nextScanner ∧
      (startScanner_create s0).scannerCalls = s0.scannerCalls ++ [.start s0.nextScanner]) ∧
    (∀ s0 : State, s0.qrScanner = none ∨ s0.scannerRunning = false →
      stopScanner s0 = ({ s0 with scannerRunning := false }, .returned)) ∧
    (∀ (s0 : State) (o : Settled),
      (stopScanner_afterClear s0 o).2 = .returned ∧
      (stopScanner_afterClear s0 o).1.scannerRunning = false) := by
  have h1 : stopScanner s =
      ({ s with scannerCalls := s.scannerCalls ++ [.stop id] }, .suspended) := by
    simp [stopScanner, hq, hr]
  refine ⟨h1, ?_, ?_, ?_, ?_, ?_, ?_, ?_⟩
  · rw [h1]
    cases o1 <;> simp [stopScanner_afterStop, hq]
  · cases o2 <;> rfl
  · rw [h1]
    cases o1 <;> cases o2 <;> simp [stopScanner_afterStop, stopScanner_afterClear, hq]
  · rw [h1]
    cases o1 <;> cases o2 <;>
      simp [stopScanner_afterStop, stopScanner_afterClear, stopScanner, hq]
  · intro s0
    exact ⟨rfl, rfl, rfl⟩
  · intro s0 h0
    rcases h0 with h0 | h0
    · simp [stopScanner, h0]
    · cases hs : s0.qrScanner <;> simp [stopScanner, h0, hs]
  · intro s0 o
    cases o <;> exact ⟨rfl, rfl⟩

theorem stopScanner_swallows_failures_witness :
    (stopScanner_afterClear
      (stopScanner_afterStop (stopScanner scanningSample).1 .rejected) .rejected).1
      = { scanningSample with scannerCalls := [.start 1, .stop 1, .clear 1],
                              scannerRunning := false } := by
  have h := stopScanner_swallows_failures scanningSample 1 .rejected .rejected rfl rfl
  exact h.2.2.2.1

end SAMS.Student

namespace SAMS.Teacher

theorem isJsSpace_space : isJsSpace (Char.ofNat 32) = true := by decide

theorem isForbidden_space : isForbidden (Char.ofNat 32) = false := by decide

theorem mem_collapseSpaces (b : Bool) (l : List Char) (c : Char)
    (h : c ∈ collapseSpaces b l) : c = Char.ofNat 32 ∨ (c ∈ l ∧ isJsSpace c = false) := by
  induction l generalizing b with
  | nil => simp [collapseSpaces] at h
  | cons x xs ih =>
    unfold collapseSpaces at h
    by_cases hx : isJsSpace x = true
    · rw [if_pos hx] at h
      cases b
      · simp only [Bool.false_eq_true, if_false, List.mem_cons] at h
        rcases h with h | h
        · exact Or.inl h
        · rcases ih true h with h | h
          · exact Or.inl h
          · exact Or.inr ⟨List.mem_cons_of_mem _ h.1, h.2⟩
      · simp only [if_true] at h
        rcases ih true h with h | h
        · exact Or.inl h
        · exact Or.inr ⟨List.mem_cons_of_mem _ h.1, h.2⟩
    · rw [if_neg hx] at h
      simp only [List.mem_cons] at h
      rcases h with h | h
      · subst h
        exact Or.inr ⟨List.mem_cons_self _ _, by simpa using hx⟩
      · rcases ih false h with h | h
        · exact Or.inl h
        · exact Or.inr ⟨List.mem_cons_of_mem _ h.1, h.2⟩

theorem collapseSpaces_head (l : List Char) (c : Char)
    (h : (collapseSpaces true l).head? = some c) : isJsSpace c = false := by
  induction l with
  | nil => simp [collapseSpaces] at h
  | cons x xs ih =>
    unfold collapseSpaces at h
    by_cases hx : isJsSpace x = true
    · rw [if_pos hx] at h
      simp only [if_true] at h
      exact ih h
    · rw [if_neg hx] at h
      simp only [List.head?_cons, Option.some.injEq] at h
      subst h
      simpa using hx

theorem collapseSpaces_chain (b : Bool) (l : List Char) :
    (collapseSpaces b l).Chain' (fun a b => ¬ (isJsSpace a = true ∧ isJsSpace b = true)) := by
  induction l generalizing b with
  | nil => simp [collapseSpaces]
  | cons x xs ih =>
    unfold collapseSpaces
    by_cases hx : isJsSpace x = true
    · rw [if_pos hx]
      cases b
      · simp only [Bool.false_eq_true, if_false]
        rw [List.chain'_cons']
        refine ⟨?_, ih true⟩
        intro y hy
        have := collapseSpaces_head xs y (by simpa using hy)
        simp [this]
      · simp only [if_true]
        exact ih true
    · rw [if_neg hx]
      rw [List.chain'_cons']
      refine ⟨?_, ih false⟩
      intro y _
      simp [hx]

theorem collapseSpaces_tidy (l : List Char) : Tidy (collapseSpaces false l) := by
  refine ⟨?_, collapseSpaces_chain false l⟩
  intro c hc hs
  rcases mem_collapseSpaces false l c hc with h | h
  · exact h
  · rw [h.2] at hs
    cases hs

end SAMS.Teacher

namespace SAMS.Teacher

theorem jsTrim_within (l : List Char) : (jsTrim ⟨l⟩).data <:+: l := by
  unfold jsTrim
  have h1 : ((l.dropWhile isJsSpace).reverse.dropWhile isJsSpace).reverse
      <+: l.dropWhile isJsSpace := by
    have := List.dropWhile_suffix isJsSpace (l := (l.dropWhile isJsSpace).reverse)
    have h := List.reverse_prefix.mpr this
    simpa using h
  exact h1.isInfix.trans (List.dropWhile_suffix isJsSpace).isInfix

theorem jsTrim_head (l : List Char) (c : Char)
    (h : (jsTrim ⟨l⟩).data.head? = some c) : isJsSpace c = false := by
  unfold jsTrim at h
  have h1 : ((l.dropWhile isJsSpace).reverse.dropWhile isJsSpace).reverse
      <+: l.dropWhile isJsSpace := by
    have := List.dropWhile_suffix isJsSpace (l := (l.dropWhile isJsSpace).reverse)
    have h := List.reverse_prefix.mpr this
    simpa using h
  obtain ⟨r, hr⟩ := h1
  have h2 : (l.dropWhile isJsSpace).head? = some c := by
    rw [← hr]
    cases ht : ((l.dropWhile isJsSpace).reverse.dropWhile isJsSpace).reverse with
    | nil =>
      simp only at h
      rw [ht] at h
      simp at h
    | cons a t =>
      simp only at h
      rw [ht] at h
      simpa using h
  have h3 := List.head?_dropWhile_not isJsSpace l
  rw [h2] at h3
  simpa using h3

theorem jsTrim_getLast (l : List Char) (c : Char)
    (h : (jsTrim ⟨l⟩).data.getLast? = some c) : isJsSpace c = false := by
  unfold jsTrim at h
  simp only [List.getLast?_reverse] at h
  have h3 := List.head?_dropWhile_not isJsSpace (l.dropWhile isJsSpace).reverse
  rw [h] at h3
  simpa using h3

theorem dropWhile_eq_self_of_head {α : Type} (p : α → Bool) (l : List α)
    (h : ∀ c, l.head? = some c → p c = false) : l.dropWhile p = l := by
  cases l with
  | nil => rfl
  | cons a t =>
    have := h a rfl
    simp [List.dropWhile_cons, this]

theorem jsTrim_of_trimmed (l : List Char)
    (hh : ∀ c, l.head? = some c → isJsSpace c = false)
    (hl : ∀ c, l.getLast? = some c → isJsSpace c = false) :
    (jsTrim ⟨l⟩).data = l := by
  unfold jsTrim
  simp only
  rw [dropWhile_eq_self_of_head isJsSpace l hh]
  rw [dropWhile_eq_self_of_head isJsSpace l.reverse (by simpa using hl)]
  simp

theorem collapseSpaces_of_tidy (b : Bool) (l : List Char) (ht : Tidy l)
    (hb : b = true → ∀ c, l.head? = some c → isJsSpace c = false) :
    collapseSpaces b l = l := by
  induction l generalizing b with
  | nil => rfl
  | cons x xs ih =>
    have htail : Tidy xs :=
      ⟨fun c hc hs => ht.1 c (List.mem_cons_of_mem _ hc) hs, ht.2.tail⟩
    unfold collapseSpaces
    by_cases hx : isJsSpace x = true
    · rw [if_pos hx]
      cases b
      · simp only [Bool.false_eq_true, if_false]
        have hx32 : x = Char.ofNat 32 := ht.1 x (List.mem_cons_self _ _) hx
        have hnext : ∀ c, xs.head? = some c → isJsSpace c = false := by
          intro c hc
          have hchain := ht.2
          rw [List.chain'_cons'] at hchain
          have := hchain.1 c (by simpa using hc)
          simpa [hx] using this
        rw [ih true htail (fun _ => hnext), hx32]
      · have := hb rfl x rfl
        rw [this] at hx
        cases hx
    · rw [if_neg hx]
      rw [ih false htail (fun h => by cases h)]

theorem cleaned_clean (name : Option String) : Clean (cleaned name).data := by
  unfold cleaned
  have hin := jsTrim_within
    (collapseSpaces false ((name.getD "").data.filter (fun c => !isForbidden c)))
  have htidy := collapseSpaces_tidy ((name.getD "").data.filter (fun c => !isForbidden c))
  refine ⟨?_, ⟨?_, ?_⟩, jsTrim_head _, jsTrim_getLast _⟩
  · intro c hc
    rcases mem_collapseSpaces false _ c (hin.subset hc) with h | h
    · rw [h]
      exact isForbidden_space
    · have := (List.mem_filter.mp h.1).2
      simpa using this
  · intro c hc hs
    exact htidy.1 c (hin.subset hc) hs
  · exact List.Chain'.infix htidy.2 hin

theorem cleaned_of_clean (l : List Char) (h : Clean l) : cleaned (some ⟨l⟩) = ⟨l⟩ := by
  unfold cleaned
  have hf : l.filter (fun c => !isForbidden c) = l := by
    rw [List.filter_eq_self]
    intro c hc
    simp [h.1 c hc]
  simp only [Option.getD_some]
  rw [hf, collapseSpaces_of_tidy false l h.2.1 (fun hb => by cases hb)]
  have := jsTrim_of_trimmed l h.2.2.1 h.2.2.2
  exact String.ext this

end SAMS.Teacher

namespace SAMS.Teacher

theorem clean_attendance : Clean "attendance".data := by
  have h := cleaned_clean (some "attendance")
  have e : cleaned (some "attendance") = "attendance" := by decide
  rwa [e] at h

theorem sanitizeFilename_of_clean (r : String) (hc : Clean r.data) (hne : r ≠ "") :
    sanitizeFilename (some r) = r := by
  have hfix : cleaned (some r) = r := cleaned_of_clean r.data hc
  unfold sanitizeFilename
  rw [hfix, if_neg hne]

theorem sanitizeFilename_clean (name : Option String) :
    Clean (sanitizeFilename name).data := by
  unfold sanitizeFilename
  split
  · exact clean_attendance
  · exact cleaned_clean name

theorem sanitizeFilename_ne_empty (name : Option String) : sanitizeFilename name ≠ "" := by
  unfold sanitizeFilename
  split
  · decide
  · assumption

/-- C17, counterexample: for the name `attendance` the cleaned text is not empty, yet
the function returns `attendance`. -/
theorem sanitize_returns_attendance_for_attendance :
    sanitizeFilename (some "attendance") = "attendance" ∧
    cleaned (some "attendance") ≠ "" := by
  constructor <;> decide

/-- C17, amended: for every name, missing or not, `sanitizeFilename` returns a
non-empty string with none of the nine forbidden characters, with no white space at
either end, whose only white-space characters are single spaces (code 32) never
adjacent to one another.  It returns `attendance` when nothing remains after
cleaning and the cleaned text otherwise, hence `attendance` exactly when the cleaned
text is empty or is `attendance` itself.  Applying it to its own result returns
that result. -/
theorem sanitizeFilename_safe_and_idempotent (name : Option String) :
    sanitizeFilename name ≠ "" ∧
    (∀ c ∈ (sanitizeFilename name).data, isForbidden c = false) ∧
    (∀ c, (sanitizeFilename name).data.head? = some c → isJsSpace c = false) ∧
    (∀ c, (sanitizeFilename name).data.getLast? = some c → isJsSpace c = false) ∧
    (∀ c ∈ (sanitizeFilename name).data, isJsSpace c = true → c = Char.ofNat 32) ∧
    (sanitizeFilename name).data.Chain'
      (fun a b => ¬ (isJsSpace a = true ∧ isJsSpace b = true)) ∧
    (cleaned name = "" → sanitizeFilename name = "attendance") ∧
    (cleaned name ≠ "" → sanitizeFilename name = cleaned name) ∧
    (sanitizeFilename name = "attendance" ↔
      cleaned name = "" ∨ cleaned name = "attendance") ∧
    sanitizeFilename (some (sanitizeFilename name)) = sanitizeFilename name := by
  have hc := sanitizeFilename_clean name
  have hne := sanitizeFilename_ne_empty name
  have h1 : cleaned name = "" → sanitizeFilename name = "attendance" := by
    intro h
    simp [sanitizeFilename, h]
  have h2 : cleaned name ≠ "" → sanitizeFilename name = cleaned name := by
    intro h
    simp [sanitizeFilename, h]
  refine ⟨hne, hc.1, hc.2.2.1, hc.2.2.2, hc.2.1.1, hc.2.1.2, h1, h2, ?_, ?_⟩
  · constructor
    · intro h
      by_cases he : cleaned name = ""
      · exact Or.inl he
      · rw [h2 he] at h
        exact Or.inr h
    · intro h
      rcases h with h | h
      · exact h1 h
      · have he : cleaned name ≠ "" := by
          rw [h]
          decide
        rw [h2 he, h]
  · exact sanitizeFilename_of_clean _ hc hne

end SAMS.Teacher

namespace SAMS

theorem Teacher.not_mem_setDisabled_false (s : Teacher.State) (c : Teacher.Control) :
    c ∉ (Teacher.setDisabled s c false).disabled := by
  simp [Teacher.setDisabled]

/-- C15, counterexample: in attendance mode a verification response with status 2xx and
the body `{success: false, match: false}` is a JSON body with `success: false`, yet when
the capture handler has finished the capture control is still disabled. -/
theorem capture_mismatch_leaves_control_disabled :
    (Student.capture_resume (Student.captureClick Student.pendingSample "img1").1
      Student.verifyMismatch).captureBtnDisabled = true ∧
    Student.verifyMismatch =
      .response true (.value { success := .bool false, match_ := .bool false,
                               score := .other "0.3121" }) :=
  ⟨rfl, rfl⟩

/-- C15, amended: the take-attendance handler, the stop-button handler and the
download handler leave their control enabled when they finish, whatever the outcome
of the round trip.  The capture handler leaves the capture control enabled for every
outcome that reaches its `catch` block (transport error, malformed or `null` JSON,
non-2xx status, a body with falsy `success` whose `match` is not `false`) and for the
local failure of a missing handle.  A 2xx body with falsy `success` and `match`
`false` is a verification result: in attendance mode the control is left as it is
and the closing of the camera modal is scheduled, whose dismissal handler enables it. -/
theorem controls_reenabled_on_failure (s : Teacher.State) (t : Student.State) :
    (∀ (env : Teacher.Env) (btn : Nat) (r : FetchResult) (draw : Teacher.Draw),
      Teacher.Control.takeBtn btn ∉ (Teacher.takeAttendance_resume env s btn r draw).disabled) ∧
    (∀ stopped : Bool, Teacher.Control.stopBtn ∉ (Teacher.stopBtn_after s stopped).disabled) ∧
    (∀ (k : JSVal) (r : FetchResult),
      Teacher.Control.stopBtn ∉
        (Teacher.stopBtn_after (Teacher.stopCurrentSession_resume s k r).1
          (Teacher.stopCurrentSession_resume s k r).2).disabled) ∧
    (∀ (btn : Nat) (name : String) (r : Teacher.DownloadResult),
      Teacher.Control.downloadBtn btn ∉ (Teacher.download_resume s btn name r).disabled) ∧
    (∀ r : FetchResult, Student.captureSucceeded r = none →
      (Student.capture_resume t r).captureBtnDisabled = false) ∧
    (∀ image : String, t.cameraMode = .attendance → t.pendingAttendanceId.truthy = false →
      (Student.captureClick t image).1.captureBtnDisabled = false) ∧
    (∀ (r : FetchResult) (data : Body), t.cameraMode = .attendance →
      Student.captureSucceeded r = some data →
      (Student.capture_resume t r).captureBtnDisabled = t.captureBtnDisabled ∧
      (Student.capture_resume t r).timeouts = t.timeouts ++ [.hideCameraModal]) ∧
    (Student.cameraModalHidden t).captureBtnDisabled = false := by
  refine ⟨?_, ?_, ?_, ?_, ?_, ?_, ?_, ?_⟩
  · intro env btn r draw
    unfold Teacher.takeAttendance_resume
    exact Teacher.not_mem_setDisabled_false _ _
  · intro stopped
    unfold Teacher.stopBtn_after
    exact Teacher.not_mem_setDisabled_false _ _
  · intro k r
    unfold Teacher.stopBtn_after
    exact Teacher.not_mem_setDisabled_false _ _
  · intro btn name r
    unfold Teacher.download_resume
    exact Teacher.not_mem_setDisabled_false _ _
  · intro r hr
    obtain ⟨msg, h⟩ := Student.capture_resume_of_failed t r hr
    rw [h]
    rfl
  · intro image hm hh
    simp [Student.captureClick, hm, hh]
  · intro r data hm hr
    rw [Student.capture_resume_of_succeeded t r data hm hr]
    exact ⟨rfl, rfl⟩
  · cases h : t.stream <;> simp [Student.cameraModalHidden, h, Student.setCameraMode]

end SAMS

namespace SAMS.Teacher

theorem mem_dropTimer (h : Option Nat) (timers : List Timer) (t : Timer) :
    t ∈ dropTimer h timers ↔ t ∈ timers ∧ h ≠ some t.id := by
  cases h with
  | none => simp [dropTimer]
  | some i =>
    simp only [dropTimer, List.mem_filter, bne_iff_ne, ne_eq, Option.some.injEq]
    constructor
    · rintro ⟨h1, h2⟩
      exact ⟨h1, fun h => h2 h.symm⟩
    · rintro ⟨h1, h2⟩
      exact ⟨h1, fun h => h2 h.symm⟩

theorem dropTimer_sublist (h : Option Nat) (timers : List Timer) :
    (dropTimer h timers).Sublist timers := by
  cases h with
  | none => exact List.Sublist.refl _
  | some i => exact List.filter_sublist _

theorem timers_clearInterval (s : State) (h : Option Nat) :
    (clearInterval s h).timers = dropTimer h s.timers ∧
    (clearInterval s h).nextTimer = s.nextTimer := by
  cases h <;> exact ⟨rfl, rfl⟩

theorem timersOk_id_inj {timers : List Timer} {next : Nat} {poll countdown : Option Nat}
    (h : TimersOk timers next poll countdown) {a b : Timer}
    (ha : a ∈ timers) (hb : b ∈ timers) (hid : a.id = b.id) : a = b :=
  List.inj_on_of_nodup_map h.1 ha hb hid

/-- `stopTimers()` keeps the invariant: no interval is live afterwards. -/
theorem timersOk_stop {timers : List Timer} {next : Nat} {poll countdown : Option Nat}
    (h : TimersOk timers next poll countdown) :
    TimersOk (dropTimer countdown (dropTimer poll timers)) next none none := by
  refine ⟨?_, ?_, ?_⟩
  · exact (h.1.sublist (((dropTimer_sublist _ _).trans (dropTimer_sublist _ _)).map _))
  · intro t ht
    rw [mem_dropTimer, mem_dropTimer] at ht
    exact h.2.1 t ht.1.1
  · intro t
    rw [mem_dropTimer, mem_dropTimer]
    constructor
    · rintro ⟨⟨h1, h2⟩, h3⟩
      rcases (h.2.2 t).mp h1 with ⟨_, hc⟩ | ⟨_, hp⟩
      · exact absurd hc h3
      · exact absurd hp h2
    · rintro (⟨_, hc⟩ | ⟨_, hp⟩)
      · cases hc
      · cases hp

/-- `startCountdown()` keeps the invariant: the interval `countdownTimer` referred to
is cancelled, the new one is the only countdown interval live. -/
theorem timersOk_startCountdown {timers : List Timer} {next : Nat}
    {poll countdown : Option Nat} (h : TimersOk timers next poll countdown) :
    TimersOk (dropTimer countdown timers ++ [⟨next, .countdown⟩]) (next + 1) poll
      (some next) := by
  refine ⟨?_, ?_, ?_⟩
  · rw [List.map_append, List.nodup_append]
    refine ⟨h.1.sublist ((dropTimer_sublist _ _).map _), by simp, ?_⟩
    intro x hx hx2
    simp only [List.map_cons, List.map_nil, List.mem_singleton] at hx2
    obtain ⟨t, ht, rfl⟩ := List.mem_map.mp hx
    have := h.2.1 t ((mem_dropTimer _ _ _).mp ht).1
    omega
  · intro t ht
    rw [List.mem_append] at ht
    rcases ht with ht | ht
    · have := h.2.1 t ((mem_dropTimer _ _ _).mp ht).1
      omega
    · simp only [List.mem_singleton] at ht
      subst ht
      exact Nat.lt_succ_self _
  · intro t
    rw [List.mem_append, mem_dropTimer]
    constructor
    · rintro (⟨h1, h2⟩ | h1)
      · rcases (h.2.2 t).mp h1 with ⟨_, hc⟩ | hp
        · exact absurd hc h2
        · exact Or.inr hp
      · simp only [List.mem_singleton] at h1
        subst h1
        exact Or.inl ⟨rfl, rfl⟩
    · rintro (⟨hk, hc⟩ | ⟨hk, hp⟩)
      · right
        have : t = ⟨next, .countdown⟩ := by
          cases t
          simp only at hk hc
          cases hc
          subst hk
          rfl
        simp [this]
      · left
        have hmem : t ∈ timers := (h.2.2 t).mpr (Or.inr ⟨hk, hp⟩)
        refine ⟨hmem, ?_⟩
        intro hc
        have hmem2 : (⟨t.id, .countdown⟩ : Timer) ∈ timers :=
          (h.2.2 _).mpr (Or.inl ⟨rfl, hc⟩)
        have := timersOk_id_inj h hmem hmem2 rfl
        rw [this] at hk
        cases hk

/-- Creating the poll interval when `pollTimer` is `null` keeps the invariant. -/
theorem timersOk_addPoll {timers : List Timer} {next : Nat} {countdown : Option Nat}
    (h : TimersOk timers next none countdown) :
    TimersOk (timers ++ [⟨next, .poll⟩]) (next + 1) (some next) countdown := by
  refine ⟨?_, ?_, ?_⟩
  · rw [List.map_append, List.nodup_append]
    refine ⟨h.1, by simp, ?_⟩
    intro x hx hx2
    simp only [List.map_cons, List.map_nil, List.mem_singleton] at hx2
    obtain ⟨t, ht, rfl⟩ := List.mem_map.mp hx
    have := h.2.1 t ht
    omega
  · intro t ht
    rw [List.mem_append] at ht
    rcases ht with ht | ht
    · have := h.2.1 t ht
      omega
    · simp only [List.mem_singleton] at ht
      subst ht
      exact Nat.lt_succ_self _
  · intro t
    rw [List.mem_append]
    constructor
    · rintro (h1 | h1)
      · rcases (h.2.2 t).mp h1 with hc | ⟨_, hp⟩
        · exact Or.inl hc
        · cases hp
      · simp only [List.mem_singleton] at h1
        subst h1
        exact Or.inr ⟨rfl, rfl⟩
    · rintro (hc | ⟨hk, hp⟩)
      · exact Or.inl ((h.2.2 t).mpr (Or.inl hc))
      · right
        have : t = ⟨next, .poll⟩ := by
          cases t
          simp only at hk hp
          cases hp
          subst hk
          rfl
        simp [this]

end SAMS.Teacher

namespace SAMS.Teacher

@[simp] theorem setStatus_nextTimer (s : State) (m : String) (b : Bool) :
    (setStatus s m b).nextTimer = s.nextTimer := rfl

@[simp] theorem renderQr_timers (env : Env) (s : State) (t : JSVal) (d : Draw) :
    (renderQr env s t d).timers = s.timers := by
  unfold renderQr
  cases env.hasQrLib <;> cases d.mainErr <;> cases d.inlineErr <;> rfl

@[simp] theorem renderQr_nextTimer (env : Env) (s : State) (t : JSVal) (d : Draw) :
    (renderQr env s t d).nextTimer = s.nextTimer := by
  unfold renderQr
  cases env.hasQrLib <;> cases d.mainErr <;> cases d.inlineErr <;> rfl

@[simp] theorem countdownTick_timers (s : State) (now : Int) :
    (countdownTick s now).timers = s.timers := by
  unfold countdownTick
  split
  · split <;> rfl
  · rfl

@[simp] theorem countdownTick_nextTimer (s : State) (now : Int) :
    (countdownTick s now).nextTimer = s.nextTimer := by
  unfold countdownTick
  split
  · split <;> rfl
  · rfl

@[simp] theorem setDisabled_timers (s : State) (c : Control) (b : Bool) :
    (setDisabled s c b).timers = s.timers := by
  cases b <;> rfl

@[simp] theorem setDisabled_nextTimer (s : State) (c : Control) (b : Bool) :
    (setDisabled s c b).nextTimer = s.nextTimer := by
  cases b <;> rfl

@[simp] theorem stopBtn_after_timers (s : State) (b : Bool) :
    (stopBtn_after s b).timers = s.timers := by
  cases b <;> simp [stopBtn_after, closeQrModalUi]

@[simp] theorem stopBtn_after_nextTimer (s : State) (b : Bool) :
    (stopBtn_after s b).nextTimer = s.nextTimer := by
  cases b <;> simp [stopBtn_after, closeQrModalUi]

theorem stopTimers_view (s : State) :
    (stopTimers s).timers = dropTimer s.countdownTimer (dropTimer s.pollTimer s.timers) ∧
    (stopTimers s).nextTimer = s.nextTimer ∧
    (stopTimers s).pollTimer = none ∧ (stopTimers s).countdownTimer = none := by
  cases hp : s.pollTimer <;> cases hc : s.countdownTimer <;>
    simp [stopTimers, clearInterval, dropTimer, hp, hc]

theorem startCountdown_view (s : State) :
    (startCountdown s).timers
      = dropTimer s.countdownTimer s.timers ++ [⟨s.nextTimer, .countdown⟩] ∧
    (startCountdown s).nextTimer = s.nextTimer + 1 ∧
    (startCountdown s).pollTimer = s.pollTimer ∧
    (startCountdown s).countdownTimer = some s.nextTimer := by
  cases hc : s.countdownTimer <;>
    simp [startCountdown, clearInterval, setInterval, dropTimer, hc]

theorem timerInv_congr (s s' : State) (h1 : s'.timers = s.timers)
    (h2 : s'.nextTimer = s.nextTimer) (h3 : s'.pollTimer = s.pollTimer)
    (h4 : s'.countdownTimer = s.countdownTimer) (h : TimerInv s) : TimerInv s' := by
  unfold TimerInv at *
  rw [h1, h2, h3, h4]
  exact h

theorem timerInv_stopTimers (s : State) (h : TimerInv s) :
    TimerInv (stopTimers s) ∧ (stopTimers s).pollTimer = none := by
  obtain ⟨h1, h2, h3, h4⟩ := stopTimers_view s
  refine ⟨?_, h3⟩
  unfold TimerInv at *
  rw [h1, h2, h3, h4]
  exact timersOk_stop h

theorem timerInv_startCountdown (s : State) (h : TimerInv s) :
    TimerInv (startCountdown s) ∧ (startCountdown s).pollTimer = s.pollTimer := by
  obtain ⟨h1, h2, h3, h4⟩ := startCountdown_view s
  refine ⟨?_, h3⟩
  unfold TimerInv at *
  rw [h1, h2, h3, h4]
  exact timersOk_startCountdown h

theorem timerInv_addPoll (s : State) (h : TimerInv s) (hp : s.pollTimer = none) :
    TimerInv { (setInterval s .poll).1 with pollTimer := some (setInterval s .poll).2 } := by
  unfold TimerInv at *
  rw [hp] at h
  exact timersOk_addPoll h

theorem timerInv_refreshQr_resume (env : Env) (s : State) (r : FetchResult) (d : Draw)
    (h : TimerInv s) : TimerInv (refreshQr_resume env s r d) := by
  by_cases hr : succeeded r = none
  · obtain ⟨msg, hm⟩ := refreshQr_resume_of_failed env s r d hr
    rw [hm]
    exact timerInv_congr s _ rfl rfl rfl rfl h
  · rcases r with m | ⟨ok, m | m | b⟩
    · exact absurd rfl hr
    · cases ok <;> exact absurd rfl hr
    · cases ok <;> exact absurd rfl hr
    · cases ok
      · exact absurd rfl hr
      · have hs : b.success.truthy = true := by
          by_contra hc
          simp [succeeded, hc] at hr
        simp only [refreshQr_resume, hs, Bool.not_true, Bool.or_false, Bool.false_eq_true,
          if_false]
        apply timerInv_congr _ _ rfl rfl rfl rfl
        apply (timerInv_startCountdown _ _).1
        apply timerInv_congr (renderQr env s b.token d) _ rfl rfl rfl rfl
        apply timerInv_congr s _ (renderQr_timers _ _ _ _) (renderQr_nextTimer _ _ _ _)
        · exact congrArg Vars.pollTimer (renderQr_toVars env s b.token d)
        · exact congrArg Vars.countdownTimer (renderQr_toVars env s b.token d)
        · exact h

end SAMS.Teacher

namespace SAMS.Teacher

theorem timerInv_setDisabled (s : State) (c : Control) (b : Bool) (h : TimerInv s) :
    TimerInv (setDisabled s c b) :=
  timerInv_congr s _ (setDisabled_timers s c b) (setDisabled_nextTimer s c b)
    (congrArg Vars.pollTimer (setDisabled_toVars s c b))
    (congrArg Vars.countdownTimer (setDisabled_toVars s c b)) h

theorem timerInv_renderQr (env : Env) (s : State) (t : JSVal) (d : Draw)
    (h : TimerInv s) : TimerInv (renderQr env s t d) :=
  timerInv_congr s _ (renderQr_timers env s t d) (renderQr_nextTimer env s t d)
    (congrArg Vars.pollTimer (renderQr_toVars env s t d))
    (congrArg Vars.countdownTimer (renderQr_toVars env s t d)) h

theorem timerInv_stopBtn_after (s : State) (b : Bool) (h : TimerInv s) :
    TimerInv (stopBtn_after s b) :=
  timerInv_congr s _ (stopBtn_after_timers s b) (stopBtn_after_nextTimer s b)
    (congrArg Vars.pollTimer (stopBtn_after_toVars s b))
    (congrArg Vars.countdownTimer (stopBtn_after_toVars s b)) h

theorem timerInv_countdownTick (s : State) (now : Int) (h : TimerInv s) :
    TimerInv (countdownTick s now) :=
  timerInv_congr s _ (countdownTick_timers s now) (countdownTick_nextTimer s now)
    (congrArg Vars.pollTimer (countdownTick_toVars s now))
    (congrArg Vars.countdownTimer (countdownTick_toVars s now)) h

theorem timerInv_takeAttendance_resume (env : Env) (s : State) (btn : Nat)
    (r : FetchResult) (d : Draw) (h : TimerInv s) :
    TimerInv (takeAttendance_resume env s btn r d) := by
  unfold takeAttendance_resume
  apply timerInv_setDisabled
  rcases r with m | ⟨ok, m | m | b⟩
  · exact timerInv_congr s _ rfl rfl rfl rfl h
  · exact timerInv_congr s _ rfl rfl rfl rfl h
  · exact timerInv_congr s _ rfl rfl rfl rfl h
  · simp only
    split
    · exact timerInv_congr s _ rfl rfl rfl rfl h
    · obtain ⟨h1, hp1⟩ := timerInv_stopTimers s h
      have h2 : TimerInv { stopTimers s with sessionId := b.session_id } :=
        timerInv_congr _ _ rfl rfl rfl rfl h1
      have h3 := timerInv_renderQr env _ b.token d h2
      have hp3 : (renderQr env { stopTimers s with sessionId := b.session_id }
          b.token d).pollTimer = none := by
        have := congrArg Vars.pollTimer
          (renderQr_toVars env { stopTimers s with sessionId := b.session_id } b.token d)
        rw [this]
        exact hp1
      have h4 : TimerInv
          { renderQr env { stopTimers s with sessionId := b.session_id } b.token d with
            expiresAtMs := .ofTime (env.dateMs b.expires_at) } :=
        timerInv_congr _ _ rfl rfl rfl rfl h3
      obtain ⟨h5, hp5⟩ := timerInv_startCountdown _ h4
      cases env.hasModal
      · exact timerInv_addPoll _ (timerInv_congr _ _ rfl rfl rfl rfl h5)
          (hp5.trans hp3)
      · exact timerInv_addPoll _ (timerInv_congr _ _ rfl rfl rfl rfl h5)
          (hp5.trans hp3)

theorem timerInv_stopCurrentSession (s : State) (h : TimerInv s) :
    TimerInv (stopCurrentSession s).1 := by
  rcases stopCurrentSession_guard s with ⟨b, hb⟩ | ⟨hn, -⟩
  · rw [hb]
    exact h
  · cases hs : s.sessionId.truthy
    · rw [stopCurrentSession_of_falsy s hs]
      exact h
    · rw [stopCurrentSession_of_free s hs hn]
      have h0 : TimerInv { s with isStopping := true } :=
        timerInv_congr s _ rfl rfl rfl rfl h
      exact timerInv_congr _ _ rfl rfl rfl rfl (timerInv_stopTimers _ h0).1

theorem timerInv_stopCurrentSession_resume (s : State) (k : JSVal) (r : FetchResult)
    (h : TimerInv s) : TimerInv (stopCurrentSession_resume s k r).1 := by
  rcases r with m | ⟨ok, m | m | b⟩
  · exact timerInv_congr s _ rfl rfl rfl rfl h
  · exact timerInv_congr s _ rfl rfl rfl rfl h
  · exact timerInv_congr s _ rfl rfl rfl rfl h
  · unfold stopCurrentSession_resume
    simp only
    split
    · exact timerInv_congr s _ rfl rfl rfl rfl h
    · exact timerInv_congr s _ rfl rfl rfl rfl h

theorem step_timerInv (env : Env) (e : Event) (σ σ' : Sys)
    (h : step env e σ = some σ') (hi : TimerInv σ.ctl) : TimerInv σ'.ctl := by
  cases e with
  | clickTake btn =>
    simp only [step] at h
    split at h
    · cases h
    · cases h
      exact timerInv_congr _ _ rfl rfl rfl rfl (timerInv_setDisabled σ.ctl (.takeBtn btn) true hi)
  | startResp i r draw =>
    simp only [step] at h
    split at h
    · cases h
      exact timerInv_takeAttendance_resume env _ _ r draw hi
    · cases h
  | pollFire t =>
    simp only [step] at h
    split at h
    · cases hc : σ.ctl.sessionId.truthy
      · simp [refreshQr, hc] at h
        subst h
        exact hi
      · simp [refreshQr, hc] at h
        subst h
        exact timerInv_congr _ _ rfl rfl rfl rfl hi
    · cases h
  | refreshResp i r draw =>
    simp only [step] at h
    split at h
    · cases h
      exact timerInv_refreshQr_resume env _ r draw hi
    · cases h
  | countdownFire t now =>
    simp only [step] at h
    split at h
    · cases h
      exact timerInv_countdownTick _ now hi
    · cases h
  | stopCall caller =>
    simp only [step, stopCall] at h
    cases caller with
    | button =>
      simp only at h
      split at h
      · cases h
      · have h1 := timerInv_stopCurrentSession _ (timerInv_setDisabled σ.ctl .stopBtn true hi)
        cases hr : stopCurrentSession (setDisabled σ.ctl .stopBtn true) with
        | mk s1 e1 =>
          rw [hr] at h h1
          cases e1 with
          | returned b =>
            cases h
            exact timerInv_stopBtn_after _ _ h1
          | suspended k =>
            cases h
            exact h1
    | inline =>
      have h1 := timerInv_stopCurrentSession _ hi
      cases hr : stopCurrentSession σ.ctl with
      | mk s1 e1 =>
        rw [hr] at h1
        simp only [hr] at h
        cases e1 <;> cases h <;> exact h1
    | hidden =>
      simp only at h
      split at h
      · have h1 := timerInv_stopCurrentSession _ hi
        cases hr : stopCurrentSession σ.ctl with
        | mk s1 e1 =>
          rw [hr] at h1
          simp only [hr] at h
          cases e1 <;> cases h <;> exact h1
      · cases h
        exact timerInv_congr _ _ rfl rfl rfl rfl hi
  | stopResp i r =>
    simp only [step] at h
    split at h
    · rename_i k caller hg
      have h1 := timerInv_stopCurrentSession_resume σ.ctl k r hi
      cases caller <;> cases h
      · exact timerInv_stopBtn_after _ _ h1
      · exact h1
      · exact h1
    · cases h

theorem run_timerInv (env : Env) (es : List Event) (σ σ' : Sys)
    (h : run env es σ = some σ') (hi : TimerInv σ.ctl) : TimerInv σ'.ctl := by
  induction es generalizing σ with
  | nil =>
    simp [run] at h
    subst h
    exact hi
  | cons e es ih =>
    simp only [run] at h
    cases hs : step env e σ with
    | none => simp [hs] at h
    | some σ1 =>
      simp [hs] at h
      exact ih σ1 h (step_timerInv env e σ σ1 hs hi)

theorem timerInv_init : TimerInv init.ctl := by
  refine ⟨by simp [init], by simp [init], ?_⟩
  intro t
  simp [init]

end SAMS.Teacher

namespace SAMS.Teacher

theorem length_le_one_of_nodup_of_const {α : Type} (l : List α) (a : α) (hn : l.Nodup)
    (hc : ∀ x ∈ l, x = a) : l.length ≤ 1 := by
  match l, hn, hc with
  | [], _, _ => simp
  | [_], _, _ => simp
  | x :: y :: t, hn, hc =>
    have hx := hc x (by simp)
    have hy := hc y (by simp)
    rw [hx, hy] at hn
    simp at hn

theorem timersOk_countP_le_one {timers : List Timer} {next : Nat}
    {poll countdown : Option Nat} (h : TimersOk timers next poll countdown)
    (k : TimerKind) : timers.countP (fun t => t.kind == k) ≤ 1 := by
  rw [List.countP_eq_length_filter]
  have hn : ((timers.filter (fun t => t.kind == k)).map Timer.id).Nodup :=
    h.1.sublist ((List.filter_sublist _).map _)
  have hlen := List.length_map (timers.filter (fun t => t.kind == k)) Timer.id
  rw [← hlen]
  cases k with
  | poll =>
    cases hp : poll with
    | none =>
      have : timers.filter (fun t => t.kind == TimerKind.poll) = [] := by
        rw [List.filter_eq_nil_iff]
        intro t ht hk
        rcases (h.2.2 t).mp ht with ⟨hk2, _⟩ | ⟨_, hp2⟩
        · rw [hk2] at hk
          cases hk
        · rw [hp] at hp2
          cases hp2
      simp [this]
    | some i =>
      refine length_le_one_of_nodup_of_const _ i hn ?_
      intro x hx
      obtain ⟨t, ht, rfl⟩ := List.mem_map.mp hx
      have ht2 := List.mem_filter.mp ht
      rcases (h.2.2 t).mp ht2.1 with ⟨hk2, _⟩ | ⟨_, hp2⟩
      · have := ht2.2
        rw [hk2] at this
        cases this
      · rw [hp] at hp2
        exact (Option.some.inj hp2).symm
  | countdown =>
    cases hp : countdown with
    | none =>
      have : timers.filter (fun t => t.kind == TimerKind.countdown) = [] := by
        rw [List.filter_eq_nil_iff]
        intro t ht hk
        rcases (h.2.2 t).mp ht with ⟨_, hc2⟩ | ⟨hk2, _⟩
        · rw [hp] at hc2
          cases hc2
        · rw [hk2] at hk
          cases hk
      simp [this]
    | some i =>
      refine length_le_one_of_nodup_of_const _ i hn ?_
      intro x hx
      obtain ⟨t, ht, rfl⟩ := List.mem_map.mp hx
      have ht2 := List.mem_filter.mp ht
      rcases (h.2.2 t).mp ht2.1 with ⟨_, hc2⟩ | ⟨hk2, _⟩
      · rw [hp] at hc2
        exact (Option.some.inj hc2).symm
      · have := ht2.2
        rw [hk2] at this
        cases this

/-- C16: in every page reached from `setup()` by any sequence of clicks, interval
ticks, start, refresh and stop responses and stop calls, at most one poll interval
and at most one countdown interval are live; every live interval is the one
`pollTimer` or `countdownTimer` refers to, and the interval each of them refers to is
live.  The functions that create intervals cancel first, within the same handler
run: after `stopTimers()` (which the start handler runs before it creates its
intervals) no interval is live, and after `startCountdown()` the only countdown
interval live is the new one. -/
theorem timers_never_leak (env : Env) (es : List Event) (σ : Sys)
    (h : run env es init = some σ) :
    σ.ctl.timers.countP (fun t => t.kind == .poll) ≤ 1 ∧
    σ.ctl.timers.countP (fun t => t.kind == .countdown) ≤ 1 ∧
    (∀ t ∈ σ.ctl.timers,
      (t.kind = .poll ∧ σ.ctl.pollTimer = some t.id) ∨
      (t.kind = .countdown ∧ σ.ctl.countdownTimer = some t.id)) ∧
    (∀ i, σ.ctl.pollTimer = some i → (⟨i, .poll⟩ : Timer) ∈ σ.ctl.timers) ∧
    (∀ i, σ.ctl.countdownTimer = some i → (⟨i, .countdown⟩ : Timer) ∈ σ.ctl.timers) ∧
    (stopTimers σ.ctl).timers = [] ∧
    (∀ t ∈ (startCountdown σ.ctl).timers, t.kind = .countdown → t.id = σ.ctl.nextTimer) ∧
    (∀ t ∈ σ.ctl.timers, t.id ≠ σ.ctl.nextTimer) := by
  have hi : TimerInv σ.ctl := run_timerInv env es init σ h timerInv_init
  refine ⟨timersOk_countP_le_one hi .poll, timersOk_countP_le_one hi .countdown, ?_, ?_, ?_,
    ?_, ?_, ?_⟩
  · intro t ht
    rcases (hi.2.2 t).mp ht with hc | hp
    · exact Or.inr hc
    · exact Or.inl hp
  · intro i hp
    exact (hi.2.2 ⟨i, .poll⟩).mpr (Or.inr ⟨rfl, hp⟩)
  · intro i hc
    exact (hi.2.2 ⟨i, .countdown⟩).mpr (Or.inl ⟨rfl, hc⟩)
  · have h1 := (timerInv_stopTimers σ.ctl hi).1
    rw [List.eq_nil_iff_forall_not_mem]
    intro t ht
    have hv := stopTimers_view σ.ctl
    rcases (h1.2.2 t).mp ht with ⟨_, hc⟩ | ⟨_, hp⟩
    · rw [hv.2.2.2] at hc
      cases hc
    · rw [hv.2.2.1] at hp
      cases hp
  · intro t ht hk
    have h1 := (timerInv_startCountdown σ.ctl hi).1
    have hv := startCountdown_view σ.ctl
    rcases (h1.2.2 t).mp ht with ⟨_, hc⟩ | ⟨hk2, _⟩
    · rw [hv.2.2.2] at hc
      exact (Option.some.inj hc).symm
    · rw [hk] at hk2
      cases hk2
  · intro t ht
    exact Nat.ne_of_lt (hi.2.1 t ht)

theorem timers_never_leak_witness :
    startedSample.ctl.timers = [⟨1, .countdown⟩, ⟨2, .poll⟩] ∧
    startedSample.ctl.timers.countP (fun t => t.kind == .poll) ≤ 1 ∧
    (stopTimers startedSample.ctl).timers = [] := by
  have h := timers_never_leak sampleEnv [.clickTake 7, .startResp 0 okStart {}]
    startedSample rfl
  exact ⟨rfl, h.1, h.2.2.2.2.2.1⟩

end SAMS.Teacher

namespace SAMS.Student

/-- C12, the code at the failing trace.  The student opens the capture surface, the
delayed `startCamera` asks for the camera, and the surface is dismissed while the
request is pending: the dismissal handler finds no stream.  Then the camera is
granted: `stream` and the video source hold the stream, none of its tracks is
stopped, the surface is not shown, and nothing is scheduled or suspended that would
release it.  The same holds when the surface is dismissed before the delayed
`startCamera` runs. -/
theorem camera_granted_after_dismissal :
    ∃ σ1 σ2 σ3 : Sys,
      run ⟨true⟩ samplePlatform
        [.clickFaceRegister, .timeout 0, .dismissCameraModal] (init false) = some σ1 ∧
      σ1.ctl.cameraModalShown = false ∧ σ1.ctl.stream = none ∧
      σ1.tasks = [.getUserMedia] ∧
      step ⟨true⟩ samplePlatform (.cameraSettled 0 (some [1])) σ1 = some σ2 ∧
      σ2.ctl.cameraModalShown = false ∧ σ2.ctl.stream = some [1] ∧
      σ2.ctl.videoSrc = some [1] ∧ σ2.ctl.stoppedTracks = [] ∧
      σ2.tasks = [] ∧ σ2.ctl.timeouts = [] ∧
      run ⟨true⟩ samplePlatform
        [.clickFaceRegister, .dismissCameraModal, .timeout 0,
         .cameraSettled 0 (some [1])] (init false) = some σ3 ∧
      σ3.ctl.cameraModalShown = false ∧ σ3.ctl.stream = some [1] ∧
      σ3.ctl.stoppedTracks = [] :=
  ⟨_, _, _, rfl, rfl, rfl, rfl, rfl, rfl, rfl, rfl, rfl, rfl, rfl, rfl, rfl, rfl, rfl⟩

/-- C13, the code at the failing trace.  A verified student opens the scanner and it
starts; one decode callback arrives, and a second one arrives while the first is
waiting for `qrScanner.stop()`.  `scannerRunning` is still `true`, so the second
callback calls `qrScanner.stop()` as well, and however the two `stop` and the two
`clear` calls settle, each callback goes on to `submitScannedToken`: `stop` has been
called twice and the same token sent twice. -/
theorem double_decode_submits_twice (o1 o2 o3 o4 : Settled) :
    ∃ σ : Sys,
      run ⟨true⟩ samplePlatform
        [.clickMarkAttendance (.num 7), .timeout 0, .scannerStartSettled 0 .fulfilled,
         .decode "tok", .decode "tok",
         .scannerStopSettled 0 o1, .scannerStopSettled 0 o2,
         .scannerClearSettled 0 o3, .scannerClearSettled 0 o4] (init true) = some σ ∧
      σ.ctl.scannerCalls = [.start 1, .stop 1, .stop 1, .clear 1, .clear 1] ∧
      σ.ctl.sent = [.scan "tok" (.num 7), .scan "tok" (.num 7)] ∧
      σ.ctl.scannerRunning = false := by
  cases o1 <;> cases o2 <;> cases o3 <;> cases o4 <;> exact ⟨_, rfl, rfl, rfl, rfl⟩

end SAMS.Student

namespace SAMS.Teacher

theorem takeAttendance_resume_of_failed (env : Env) (s : State) (btn : Nat)
    (r : FetchResult) (d : Draw) (hfail : succeeded r = none) :
    ∃ msg, takeAttendance_resume env s btn r d =
      setDisabled (alert s msg) (.takeBtn btn) false := by
  rcases r with m | ⟨ok, m | m | b⟩
  · exact ⟨_, rfl⟩
  · exact ⟨_, rfl⟩
  · exact ⟨_, rfl⟩
  · cases ok
    · exact ⟨(b.error.or (.str "Could not start attendance.")).toStr, by
        simp [takeAttendance_resume]⟩
    · have hd : b.success.truthy = false := by
        by_contra h
        simp [succeeded, h] at hfail
      exact ⟨(b.error.or (.str "Could not start attendance.")).toStr, by
        simp [takeAttendance_resume, hd]⟩

theorem mem_of_mem_eraseIdx {α : Type} (l : List α) (i : Nat) (a : α)
    (h : a ∈ l.eraseIdx i) : a ∈ l :=
  (List.eraseIdx_sublist l i).subset h

theorem timersOff_congr (s s' : State) (h1 : s'.timers = s.timers)
    (h3 : s'.pollTimer = s.pollTimer) (h4 : s'.countdownTimer = s.countdownTimer)
    (h5 : s'.expiresAtMs = s.expiresAtMs) (h : TimersOff s) : TimersOff s' := by
  unfold TimersOff at *
  rw [h1, h3, h4, h5]
  exact h

/-- While a stop is in flight, an event other than its response suspends no further
`stopCurrentSession`, and unless it is a successful start or refresh response it
leaves the timers off. -/
theorem step_while_stopping (env : Env) (e : Event) (σ σ' : Sys)
    (h : step env e σ = some σ') (he : e.isStopResp = false)
    (hst : σ.ctl.isStopping = true) :
    (∀ t ∈ σ'.tasks, t ∈ σ.tasks ∨ t.isStop = false) ∧
    (e.restartsTimers = false → TimersOff σ.ctl → TimersOff σ'.ctl) := by
  cases e with
  | clickTake btn =>
    simp only [step] at h
    split at h
    · cases h
    · cases h
      refine ⟨?_, fun _ ht => ?_⟩
      · intro t ht
        rcases List.mem_append.mp ht with ht | ht
        · exact Or.inl ht
        · simp only [List.mem_singleton] at ht
          subst ht
          exact Or.inr rfl
      · exact timersOff_congr σ.ctl _ rfl rfl rfl rfl ht
  | startResp i r draw =>
    simp only [step] at h
    split at h
    · cases h
      refine ⟨fun t ht => Or.inl (mem_of_mem_eraseIdx _ _ _ ht), fun hr ht => ?_⟩
      have hf : succeeded r = none := by
        cases hs : succeeded r with
        | none => rfl
        | some b => simp [Event.restartsTimers, hs] at hr
      obtain ⟨msg, hm⟩ := takeAttendance_resume_of_failed env σ.ctl _ r draw hf
      rw [hm]
      exact timersOff_congr σ.ctl _ rfl rfl rfl rfl ht
    · cases h
  | pollFire t =>
    simp only [step] at h
    split at h
    · cases hc : σ.ctl.sessionId.truthy
      · simp [refreshQr, hc] at h
        subst h
        exact ⟨fun t ht => Or.inl ht, fun _ ht => ht⟩
      · simp [refreshQr, hc] at h
        subst h
        refine ⟨?_, fun _ ht => timersOff_congr σ.ctl _ rfl rfl rfl rfl ht⟩
        intro t ht
        rcases List.mem_append.mp ht with ht | ht
        · exact Or.inl ht
        · simp only [List.mem_singleton] at ht
          subst ht
          exact Or.inr rfl
    · cases h
  | refreshResp i r draw =>
    simp only [step] at h
    split at h
    · cases h
      refine ⟨fun t ht => Or.inl (mem_of_mem_eraseIdx _ _ _ ht), fun hr ht => ?_⟩
      have hf : succeeded r = none := by
        cases hs : succeeded r with
        | none => rfl
        | some b => simp [Event.restartsTimers, hs] at hr
      obtain ⟨msg, hm⟩ := refreshQr_resume_of_failed env σ.ctl r draw hf
      rw [hm]
      exact timersOff_congr σ.ctl _ rfl rfl rfl rfl ht
    · cases h
  | countdownFire t now =>
    simp only [step] at h
    split at h
    · cases h
      refine ⟨fun t ht => Or.inl ht, fun _ ht => ?_⟩
      exact timersOff_congr σ.ctl _ (countdownTick_timers _ _)
        (congrArg Vars.pollTimer (countdownTick_toVars σ.ctl now))
        (congrArg Vars.countdownTimer (countdownTick_toVars σ.ctl now))
        (congrArg Vars.expiresAtMs (countdownTick_toVars σ.ctl now)) ht
    · cases h
  | stopCall caller =>
    simp only [step, stopCall] at h
    cases caller with
    | button =>
      simp only at h
      split at h
      · cases h
      · obtain ⟨b, hb⟩ := stopCurrentSession_of_stopping (setDisabled σ.ctl .stopBtn true)
          (by simp [hst])
        rw [hb] at h
        cases h
        refine ⟨fun t ht => Or.inl ht, fun _ ht => ?_⟩
        refine timersOff_congr σ.ctl _ (by simp) ?_ ?_ ?_ ht
        · exact (congrArg Vars.pollTimer (stopBtn_after_toVars _ b)).trans
            (congrArg Vars.pollTimer (setDisabled_toVars σ.ctl .stopBtn true))
        · exact (congrArg Vars.countdownTimer (stopBtn_after_toVars _ b)).trans
            (congrArg Vars.countdownTimer (setDisabled_toVars σ.ctl .stopBtn true))
        · exact (congrArg Vars.expiresAtMs (stopBtn_after_toVars _ b)).trans
            (congrArg Vars.expiresAtMs (setDisabled_toVars σ.ctl .stopBtn true))
    | inline =>
      obtain ⟨b, hb⟩ := stopCurrentSession_of_stopping σ.ctl hst
      simp only [hb] at h
      cases h
      exact ⟨fun t ht => Or.inl ht, fun _ ht => ht⟩
    | hidden =>
      obtain ⟨b, hb⟩ := stopCurrentSession_of_stopping σ.ctl hst
      simp only [hb] at h
      split at h
      · cases h
        exact ⟨fun t ht => Or.inl ht, fun _ ht => ht⟩
      · cases h
        exact ⟨fun t ht => Or.inl ht,
          fun _ ht => timersOff_congr σ.ctl _ rfl rfl rfl rfl ht⟩
  | stopResp i r => simp [Event.isStopResp] at he

theorem run_while_stopping (env : Env) (es : List Event) (σ σ' : Sys) (T : Task)
    (h : run env es σ = some σ') (he : ∀ e ∈ es, e.isStopResp = false)
    (hst : σ.ctl.isStopping = true)
    (hT : ∀ t ∈ σ.tasks, t.isStop = true → t = T) :
    (∀ t ∈ σ'.tasks, t.isStop = true → t = T) ∧
    ((∀ e ∈ es, e.restartsTimers = false) → TimersOff σ.ctl → TimersOff σ'.ctl) := by
  induction es generalizing σ with
  | nil =>
    simp [run] at h
    subst h
    exact ⟨hT, fun _ ht => ht⟩
  | cons e es ih =>
    simp only [run] at h
    cases hs : step env e σ with
    | none => simp [hs] at h
    | some σ1 =>
      simp [hs] at h
      have he1 := he e (by simp)
      obtain ⟨h1, -⟩ := step_keeps_stopping env e σ σ1 hs he1 hst
      obtain ⟨h2, h3⟩ := step_while_stopping env e σ σ1 hs he1 hst
      have hT1 : ∀ t ∈ σ1.tasks, t.isStop = true → t = T := by
        intro t ht hstop
        rcases h2 t ht with h | h
        · exact hT t h hstop
        · rw [h] at hstop
          cases hstop
      obtain ⟨h4, h5⟩ := ih σ1 h (fun x hx => he x (by simp [hx])) h1 hT1
      refine ⟨h4, fun hr ht => ?_⟩
      exact h5 (fun x hx => hr x (by simp [hx])) (h3 (hr e (by simp)) ht)

end SAMS.Teacher

namespace SAMS.Teacher

theorem timersOff_stopTimers (s : State) (h : TimerInv s) : TimersOff (stopTimers s) := by
  obtain ⟨h1, hp⟩ := timerInv_stopTimers s h
  obtain ⟨-, -, hv3, hv4⟩ := stopTimers_view s
  refine ⟨hv3, hv4, ?_, ?_⟩
  · cases hp2 : s.pollTimer <;> cases hc : s.countdownTimer <;>
      simp [stopTimers, clearInterval, hp2, hc]
  · rw [List.eq_nil_iff_forall_not_mem]
    intro t ht
    rcases (h1.2.2 t).mp ht with ⟨_, hc⟩ | ⟨_, hp3⟩
    · rw [hv4] at hc
      cases hc
    · rw [hv3] at hp3
      cases hp3

theorem stopCall_of_free_off (env : Env) (σ0 σ1 : Sys) (caller : StopCaller)
    (hs : σ0.ctl.sessionId.truthy = true) (hn : σ0.ctl.isStopping = false)
    (hi : TimerInv σ0.ctl)
    (h : step env (.stopCall caller) σ0 = some σ1) : TimersOff σ1.ctl := by
  simp only [step, stopCall] at h
  cases caller with
  | button =>
    simp only at h
    split at h
    · cases h
    · rw [stopCurrentSession_of_free _ (by simpa using hs) (by simpa using hn)] at h
      cases h
      have h0 : TimerInv { setDisabled σ0.ctl .stopBtn true with isStopping := true } :=
        timerInv_congr _ _ rfl rfl rfl rfl (timerInv_setDisabled σ0.ctl .stopBtn true hi)
      exact timersOff_congr _ _ rfl rfl rfl rfl (timersOff_stopTimers _ h0)
  | inline =>
    simp only [stopCurrentSession_of_free _ hs hn] at h
    cases h
    have h0 : TimerInv { σ0.ctl with isStopping := true } :=
      timerInv_congr _ _ rfl rfl rfl rfl hi
    exact timersOff_congr _ _ rfl rfl rfl rfl (timersOff_stopTimers _ h0)
  | hidden =>
    simp only [hs, if_true, stopCurrentSession_of_free _ hs hn] at h
    cases h
    have h0 : TimerInv { σ0.ctl with isStopping := true } :=
      timerInv_congr _ _ rfl rfl rfl rfl hi
    exact timersOff_congr _ _ rfl rfl rfl rfl (timersOff_stopTimers _ h0)

theorem stopResp_of_failed (env : Env) (σ2 σ3 : Sys) (i : Nat) (r : FetchResult)
    (hfail : succeeded r = none) (h : step env (.stopResp i r) σ2 = some σ3) :
    ∃ k c, σ2.tasks.get? i = some (.stop k c) ∧
      σ3.tasks = σ2.tasks.eraseIdx i ∧
      σ3.ctl.sessionId = k ∧ σ3.ctl.isStopping = false ∧
      σ3.ctl.pollTimer = σ2.ctl.pollTimer ∧
      σ3.ctl.countdownTimer = σ2.ctl.countdownTimer ∧
      σ3.ctl.expiresAtMs = σ2.ctl.expiresAtMs ∧
      σ3.ctl.timers = σ2.ctl.timers ∧ σ3.ctl.sent = σ2.ctl.sent := by
  simp only [step] at h
  split at h
  · rename_i k c hg
    obtain ⟨msg, hm⟩ := stopCurrentSession_resume_of_failed σ2.ctl k r hfail
    rw [hm] at h
    refine ⟨k, c, hg, ?_⟩
    cases c <;> cases h <;> simp [stopBtn_after, setDisabled, setStatus]
  · cases h

/-- C4, counterexample: a session is running and a refresh request is in flight when
the inline stop button is pressed; the refresh response arrives during the stop
round trip and the stop then fails.  When the failed `stopCurrentSession` has
returned, `sessionId` is restored and `isStopping` is `false`, but `countdownTimer`
is not `null` and its interval is live. -/
theorem failed_stop_after_refresh_has_countdown :
    ∃ σ : Sys,
      run sampleEnv [.clickTake 7, .startResp 0 okStart {}, .pollFire 2,
        .stopCall .inline, .refreshResp 0 okRefresh {}, .stopResp 0 stopRejected] init
        = some σ ∧
      succeeded stopRejected = none ∧
      σ.ctl.sessionId = .str "s1" ∧ σ.ctl.isStopping = false ∧
      σ.ctl.countdownTimer = some 3 ∧ σ.ctl.countdownTimer ≠ none ∧
      σ.ctl.timers = [⟨3, .countdown⟩] :=
  ⟨_, rfl, rfl, rfl, rfl, rfl, by decide, rfl⟩

/-- C4, amended: take any page reached from `setup()` that holds a session and has no
stop in flight, let a caller invoke `stopCurrentSession`, let any events follow
except the response to its request, and let that response be a failure (transport
or JSON error, `null` body, non-2xx status, falsy `success`).  The function that
resumes is that invocation; it returns `false`; afterwards `sessionId` is the
identifier held before the call and `isStopping` is `false`; and the failed stop
restarts nothing: `pollTimer`, `countdownTimer`, `expiresAtMs`, the live intervals
and the requests sent are as the response found them.  If no start or refresh
response succeeded during the round trip, both timer variables and `expiresAtMs`
are still `null` and no interval is live.  The failure branch does the same on any
state whatever. -/
theorem failed_stop_restarts_no_timer (env : Env) (pre mid : List Event)
    (σ0 σ1 σ2 σ3 : Sys) (caller : StopCaller) (i : Nat) (r : FetchResult)
    (h0 : run env pre init = some σ0)
    (hs0 : σ0.ctl.sessionId.truthy = true) (hn0 : σ0.ctl.isStopping = false)
    (h1 : step env (.stopCall caller) σ0 = some σ1)
    (hmid : ∀ e ∈ mid, e.isStopResp = false)
    (h2 : run env mid σ1 = some σ2)
    (hfail : succeeded r = none)
    (h3 : step env (.stopResp i r) σ2 = some σ3) :
    σ2.tasks.get? i = some (.stop σ0.ctl.sessionId caller) ∧
    (stopCurrentSession_resume σ2.ctl σ0.ctl.sessionId r).2 = false ∧
    σ3.ctl.sessionId = σ0.ctl.sessionId ∧
    σ3.ctl.isStopping = false ∧
    σ3.ctl.pollTimer = σ2.ctl.pollTimer ∧
    σ3.ctl.countdownTimer = σ2.ctl.countdownTimer ∧
    σ3.ctl.expiresAtMs = σ2.ctl.expiresAtMs ∧
    σ3.ctl.timers = σ2.ctl.timers ∧
    σ3.ctl.sent = σ2.ctl.sent ∧
    ((∀ e ∈ mid, e.restartsTimers = false) →
      σ3.ctl.pollTimer = none ∧ σ3.ctl.countdownTimer = none ∧
      σ3.ctl.expiresAtMs = .null ∧ σ3.ctl.timers = []) ∧
    (∀ (s : State) (k : JSVal),
      (stopCurrentSession_resume s k r).2 = false ∧
      (stopCurrentSession_resume s k r).1.sessionId = k ∧
      (stopCurrentSession_resume s k r).1.isStopping = false ∧
      (stopCurrentSession_resume s k r).1.pollTimer = s.pollTimer ∧
      (stopCurrentSession_resume s k r).1.countdownTimer = s.countdownTimer ∧
      (stopCurrentSession_resume s k r).1.expiresAtMs = s.expiresAtMs ∧
      (stopCurrentSession_resume s k r).1.timers = s.timers ∧
      (stopCurrentSession_resume s k r).1.sent = s.sent) := by
  have hframe : ∀ (s : State) (k : JSVal),
      (stopCurrentSession_resume s k r).2 = false ∧
      (stopCurrentSession_resume s k r).1.sessionId = k ∧
      (stopCurrentSession_resume s k r).1.isStopping = false ∧
      (stopCurrentSession_resume s k r).1.pollTimer = s.pollTimer ∧
      (stopCurrentSession_resume s k r).1.countdownTimer = s.countdownTimer ∧
      (stopCurrentSession_resume s k r).1.expiresAtMs = s.expiresAtMs ∧
      (stopCurrentSession_resume s k r).1.timers = s.timers ∧
      (stopCurrentSession_resume s k r).1.sent = s.sent := by
    intro s k
    obtain ⟨msg, h⟩ := stopCurrentSession_resume_of_failed s k r hfail
    rw [h]
    simp [setStatus]
  have g0 : GuardInv σ0 := run_guardInv env pre init σ0 h0 guardInv_init
  have t0 : TimerInv σ0.ctl := run_timerInv env pre init σ0 h0 timerInv_init
  have hnone : ∀ t ∈ σ0.tasks, t.isStop = false := by
    have hz : σ0.tasks.countP Task.isStop = 0 := by
      have := g0
      unfold GuardInv stopsInFlight at this
      rw [this, hn0]
      rfl
    intro t ht
    have := List.countP_eq_zero.mp hz t ht
    simpa using this
  obtain ⟨ht1, hst1, -⟩ := stopCall_of_free env σ0 σ1 caller hs0 hn0 h1
  have hoff1 : TimersOff σ1.ctl := stopCall_of_free_off env σ0 σ1 caller hs0 hn0 t0 h1
  have hT1 : ∀ t ∈ σ1.tasks, t.isStop = true → t = Task.stop σ0.ctl.sessionId caller := by
    intro t ht hstop
    rw [ht1] at ht
    rcases List.mem_append.mp ht with ht | ht
    · rw [hnone t ht] at hstop
      cases hstop
    · simpa using ht
  obtain ⟨hT2, hoff2⟩ := run_while_stopping env mid σ1 σ2 _ h2 hmid hst1 hT1
  obtain ⟨k, c, hg, -, e1, e2, e3, e4, e5, e6, e7⟩ :=
    stopResp_of_failed env σ2 σ3 i r hfail h3
  have hkc : Task.stop k c = Task.stop σ0.ctl.sessionId caller :=
    hT2 _ (List.get?_mem hg) rfl
  have hk : k = σ0.ctl.sessionId := by
    injection hkc
  refine ⟨by rw [hg, hkc], (hframe _ _).1, by rw [e1, hk], e2, e3, e4, e5, e6, e7, ?_,
    hframe⟩
  intro hr
  obtain ⟨o1, o2, o3, o4⟩ := hoff2 hr hoff1
  exact ⟨by rw [e3, o1], by rw [e4, o2], by rw [e5, o3], by rw [e6, o4]⟩

theorem failed_stop_restarts_no_timer_witness :
    stopFailedSample.ctl.sessionId = .str "s1" ∧
    stopFailedSample.ctl.isStopping = false ∧
    stopFailedSample.ctl.pollTimer = none ∧
    stopFailedSample.ctl.countdownTimer = none ∧
    stopFailedSample.ctl.timers = [] := by
  have h := failed_stop_restarts_no_timer sampleEnv
    [.clickTake 7, .startResp 0 okStart {}] [.clickTake 8, .stopCall .hidden]
    startedSample stoppingSample stoppingLaterSample stopFailedSample .button 0
    stopRejected rfl rfl rfl rfl (by decide) rfl rfl rfl
  obtain ⟨-, -, h3, h4, -, -, -, -, -, h10, -⟩ := h
  obtain ⟨o1, o2, -, o4⟩ := h10 (by decide)
  exact ⟨h3, h4, o1, o2, o4⟩

end SAMS.Teacher
